import Mathlib

/-!
Shallow embedding of the Intcode virtual machine of this repository
(aoc-2019-rust) and proofs about it.

The embedding covers:
* the later VM variant with a relative base (`src/21/src/process.rs`),
  namespace `Day21`;
* the earlier VM variant with only Position/Immediate modes
  (`src/7/src/process.rs`), namespace `Day7`;
* the FIFO `Channel` shared by both variants;
* the generic scheduler `run_to_completion`, namespace `Sched`;
* the network layer (`Nic`, `Router`, `Nat` device) of
  `src/23/src/main.rs`, namespace `Day23`.

Rust machine-integer details are made explicit: `i64` arithmetic wraps
through `wrap64`, `as usize` casts go through `toUsize`, and the
`usize`/`isize` round trip used for relative addressing is `relAddr`.
Fallible operations (slice indexing, `unwrap` on decode errors) are
modelled with `Except String`.
-/

/-- The result type of `Process::execute` (`enum State` in the source). -/
inductive VMState where
  | Complete
  | Blocked
deriving DecidableEq, Repr

/-- 2^64, the modulus of Rust's `usize` on the target platform. -/
def USIZE : Nat := 2 ^ 64

/-- Rust's `x as usize` on an `i64` value: two's-complement reinterpretation,
i.e. the value modulo 2^64, as a natural number. -/
def toUsize (v : Int) : Nat := (v % (USIZE : Int)).toNat

/-- Rust's wrapping `i64` arithmetic (release-profile semantics; the spec
leaves overflow behaviour unspecified). -/
def wrap64 (x : Int) : Int := (x + 2 ^ 63) % 2 ^ 64 - 2 ^ 63

/-- `(base as isize + v as isize) as usize`: the address computation used by
Relative-mode parameters and by the relative-base update.  Modulo 2^64 this
equals `base + v`. -/
def relAddr (base : Nat) (v : Int) : Nat := toUsize ((base : Int) + v)

/-- Reading a slice index in Rust: the element, or a panic when out of
bounds. -/
def readMem (mem : List Int) (i : Nat) : Except String Int :=
  match mem[i]? with
  | some v => Except.ok v
  | none => Except.error "index out of bounds"

/-- Writing a slice index in Rust: the updated slice, or a panic when out of
bounds. -/
def writeMem (mem : List Int) (i : Nat) (v : Int) : Except String (List Int) :=
  if i < mem.length then Except.ok (mem.set i v) else Except.error "index out of bounds"

/-- The `Input<i64>` capability (`fn get(&self) -> Option<i64>`): interior
mutability is modelled by returning the successor state alongside the
optional value. -/
structure InputImpl (σ : Type) where
  get : σ → Option Int × σ

/-- The `Output<i64>` capability (`fn put(&self, value: i64)`). -/
structure OutputImpl (τ : Type) where
  put : τ → Int → τ

/-- A process together with the states of its two I/O endpoints (in Rust the
endpoints live inside the `Process` as trait objects). -/
structure Sys (P σ τ : Type) where
  proc : P
  inp : σ
  outp : τ

/-! ## The `Channel` FIFO (identical in `src/7` and `src/21`) -/

/-- `Channel<T>`: a `RefCell<Vec<T>>`; the list head is the oldest element. -/
abbrev Channel (α : Type) : Type := List α

namespace Channel

/-- `fn get(&self) -> Option<T>`: `buffer.remove(0)` when non-empty. -/
def get {α : Type} : Channel α → Option α × Channel α
  | [] => (none, [])
  | v :: rest => (some v, rest)

/-- `fn put(&self, value: T)`: `buffer.push(value)`. -/
def put {α : Type} (c : Channel α) (v : α) : Channel α := c ++ [v]

/-- An interleaving of channel operations, used to state the FIFO claim. -/
inductive Op (α : Type) where
  | put (v : α)
  | get

/-- The values put by a sequence of operations, in order. -/
def putsOf {α : Type} : List (Op α) → List α
  | [] => []
  | Op.put v :: rest => v :: putsOf rest
  | Op.get :: rest => putsOf rest

/-- Run a sequence of operations against a channel; returns the final channel
and the values successfully returned by `get`, in order. -/
def runOps {α : Type} : Channel α → List (Op α) → Channel α × List α
  | c, [] => (c, [])
  | c, Op.put v :: rest => runOps (put c v) rest
  | c, Op.get :: rest =>
      match get c with
      | (none, c1) => runOps c1 rest
      | (some v, c1) =>
          let r := runOps c1 rest
          (r.1, v :: r.2)

end Channel

/-- The `Channel` as an input endpoint. -/
def chanInput : InputImpl (Channel Int) := ⟨Channel.get⟩

/-- The `Channel` as an output endpoint. -/
def chanOutput : OutputImpl (Channel Int) := ⟨Channel.put⟩

/-! ## The later VM variant, `src/21/src/process.rs` -/

namespace Day21

/-- Addressing modes. -/
inductive Mode where
  | Position
  | Immediate
  | Relative
deriving DecidableEq, Repr

/-- `Modes::mode`: `(modes % 10^(index+1)) / 10^index`, with Rust's
truncating `i64` division and remainder. -/
def Modes.mode (modes : Int) (index : Nat) : Except String Mode :=
  let m := Int.tdiv (Int.tmod modes ((10 : Int) ^ (index + 1))) ((10 : Int) ^ index)
  if m = 0 then Except.ok Mode.Position
  else if m = 1 then Except.ok Mode.Immediate
  else if m = 2 then Except.ok Mode.Relative
  else Except.error "Unknown mode"

/-- A decoded parameter: a mode and the raw value. -/
structure Parameter where
  mode : Mode
  value : Int
deriving DecidableEq, Repr

/-- `Parameters::get`: decode the mode digit for `index` and read the raw
value (both failures are fatal in the source — `unwrap` / slice panic). -/
def Parameters.get (data : List Int) (modes : Int) (index : Nat) :
    Except String Parameter := do
  let m ← Modes.mode modes index
  match data[index]? with
  | some v => Except.ok ⟨m, v⟩
  | none => Except.error "index out of bounds"

/-- Decoded instructions. -/
inductive Instruction where
  | Add (x y output : Parameter)
  | Mul (x y output : Parameter)
  | Input (output : Parameter)
  | Output (input : Parameter)
  | JumpIfTrue (input address : Parameter)
  | JumpIfFalse (input address : Parameter)
  | LessThan (x y output : Parameter)
  | Equals (x y output : Parameter)
  | RelativeBaseOffset (offset : Parameter)
  | Exit
deriving DecidableEq, Repr

/-- `Instruction::parse`: opcode is `data[0] % 100`, modes are
`data[0] / 100`. -/
def Instruction.parse (data : List Int) : Except String Instruction := do
  match data[0]? with
  | none => Except.error "index out of bounds"
  | some w =>
    let opcode := Int.tmod w 100
    let modes := Int.tdiv w 100
    let ps := data.drop 1
    if opcode = 1 then do
      let x ← Parameters.get ps modes 0
      let y ← Parameters.get ps modes 1
      let output ← Parameters.get ps modes 2
      Except.ok (Instruction.Add x y output)
    else if opcode = 2 then do
      let x ← Parameters.get ps modes 0
      let y ← Parameters.get ps modes 1
      let output ← Parameters.get ps modes 2
      Except.ok (Instruction.Mul x y output)
    else if opcode = 3 then do
      let output ← Parameters.get ps modes 0
      Except.ok (Instruction.Input output)
    else if opcode = 4 then do
      let input ← Parameters.get ps modes 0
      Except.ok (Instruction.Output input)
    else if opcode = 5 then do
      let input ← Parameters.get ps modes 0
      let address ← Parameters.get ps modes 1
      Except.ok (Instruction.JumpIfTrue input address)
    else if opcode = 6 then do
      let input ← Parameters.get ps modes 0
      let address ← Parameters.get ps modes 1
      Except.ok (Instruction.JumpIfFalse input address)
    else if opcode = 7 then do
      let x ← Parameters.get ps modes 0
      let y ← Parameters.get ps modes 1
      let output ← Parameters.get ps modes 2
      Except.ok (Instruction.LessThan x y output)
    else if opcode = 8 then do
      let x ← Parameters.get ps modes 0
      let y ← Parameters.get ps modes 1
      let output ← Parameters.get ps modes 2
      Except.ok (Instruction.Equals x y output)
    else if opcode = 9 then do
      let offset ← Parameters.get ps modes 0
      Except.ok (Instruction.RelativeBaseOffset offset)
    else if opcode = 99 then Except.ok Instruction.Exit
    else Except.error "Unknown opcode"

/-- `Instruction::size`: total words consumed, including the opcode word. -/
def Instruction.size : Instruction → Nat
  | Instruction.Add _ _ _ | Instruction.Mul _ _ _
  | Instruction.LessThan _ _ _ | Instruction.Equals _ _ _ => 4
  | Instruction.JumpIfTrue _ _ | Instruction.JumpIfFalse _ _ => 3
  | Instruction.Input _ | Instruction.Output _
  | Instruction.RelativeBaseOffset _ => 2
  | Instruction.Exit => 1

/-- The VM state proper: memory, instruction pointer, relative base (a Rust
`usize`, hence a natural number below 2^64 — the wrap is in `relAddr`). -/
structure Process where
  memory : List Int
  instruction_pointer : Nat
  relative_base : Nat
deriving DecidableEq, Repr

/-- Memory capacity used by `Process::new`. -/
def MEM_SIZE : Nat := 10240

/-- `Process::new`: the program is copied into the low addresses of a
zero-filled 10240-cell memory (a panic — error — if it does not fit). -/
def Process.new (program : List Int) : Except String Process :=
  if program.length ≤ MEM_SIZE then
    Except.ok ⟨program ++ List.replicate (MEM_SIZE - program.length) 0, 0, 0⟩
  else Except.error "program too large"

/-- `Process::resolve` (read-parameter resolution). -/
def Process.resolve (p : Process) (param : Parameter) : Except String Int :=
  match param.mode with
  | Mode.Position => readMem p.memory (toUsize param.value)
  | Mode.Immediate => Except.ok param.value
  | Mode.Relative => readMem p.memory (relAddr p.relative_base param.value)

/-- `Process::resolve_address` (write-target resolution).  Note that the
source sends `Position` and `Immediate` through the same arm. -/
def Process.resolve_address (p : Process) (param : Parameter) : Nat :=
  match param.mode with
  | Mode.Relative => relAddr p.relative_base param.value
  | Mode.Position => toUsize param.value
  | Mode.Immediate => toUsize param.value

/-- `Process::set`: pre-execution memory patch. -/
def Process.set (p : Process) (address : Nat) (value : Int) :
    Except String Process := do
  let mem ← writeMem p.memory address value
  Except.ok { p with memory := mem }

/-- Outcome of executing one instruction inside the `execute` loop. -/
inductive StepResult where
  | continue
  | blocked
  | complete
deriving DecidableEq, Repr

/-- One iteration of the loop body of `Process::execute`:
`next_instruction` (parse + advance the instruction pointer by the
instruction's size) followed by the instruction's effect. -/
def step {σ τ : Type} (I : InputImpl σ) (O : OutputImpl τ)
    (s : Sys Process σ τ) : Except String (StepResult × Sys Process σ τ) := do
  let instr ← Instruction.parse (s.proc.memory.drop s.proc.instruction_pointer)
  let p : Process :=
    { s.proc with instruction_pointer := s.proc.instruction_pointer + instr.size }
  match instr with
  | Instruction.Add x y output => do
      let xv ← p.resolve x
      let yv ← p.resolve y
      let addr := p.resolve_address output
      let mem ← writeMem p.memory addr (wrap64 (xv + yv))
      Except.ok (StepResult.continue, { s with proc := { p with memory := mem } })
  | Instruction.Mul x y output => do
      let xv ← p.resolve x
      let yv ← p.resolve y
      let addr := p.resolve_address output
      let mem ← writeMem p.memory addr (wrap64 (xv * yv))
      Except.ok (StepResult.continue, { s with proc := { p with memory := mem } })
  | Instruction.Input output =>
      match I.get s.inp with
      | (some v, inp1) => do
          let addr := p.resolve_address output
          let mem ← writeMem p.memory addr v
          Except.ok (StepResult.continue,
            { proc := { p with memory := mem }, inp := inp1, outp := s.outp })
      | (none, inp1) =>
          Except.ok (StepResult.blocked,
            { s with
              proc :=
                { p with
                  instruction_pointer := p.instruction_pointer - instr.size },
              inp := inp1 })
  | Instruction.Output input => do
      let v ← p.resolve input
      Except.ok (StepResult.continue, { s with proc := p, outp := O.put s.outp v })
  | Instruction.JumpIfTrue input address => do
      let iv ← p.resolve input
      if iv ≠ 0 then do
        let av ← p.resolve address
        Except.ok (StepResult.continue,
          { s with proc := { p with instruction_pointer := toUsize av } })
      else Except.ok (StepResult.continue, { s with proc := p })
  | Instruction.JumpIfFalse input address => do
      let iv ← p.resolve input
      if iv = 0 then do
        let av ← p.resolve address
        Except.ok (StepResult.continue,
          { s with proc := { p with instruction_pointer := toUsize av } })
      else Except.ok (StepResult.continue, { s with proc := p })
  | Instruction.LessThan x y output => do
      let xv ← p.resolve x
      let yv ← p.resolve y
      let addr := p.resolve_address output
      let mem ← writeMem p.memory addr (if xv < yv then 1 else 0)
      Except.ok (StepResult.continue, { s with proc := { p with memory := mem } })
  | Instruction.Equals x y output => do
      let xv ← p.resolve x
      let yv ← p.resolve y
      let addr := p.resolve_address output
      let mem ← writeMem p.memory addr (if xv = yv then 1 else 0)
      Except.ok (StepResult.continue, { s with proc := { p with memory := mem } })
  | Instruction.RelativeBaseOffset offset => do
      let ov ← p.resolve offset
      Except.ok (StepResult.continue,
        { s with proc := { p with relative_base := relAddr p.relative_base ov } })
  | Instruction.Exit => Except.ok (StepResult.complete, { s with proc := p })

/-- `Process::execute`: loop `step` until `Blocked` or `Complete`.  Fuel
bounds the number of instructions; `none` means the fuel ran out while the
loop was still running. -/
def execute {σ τ : Type} (I : InputImpl σ) (O : OutputImpl τ) :
    Nat → Sys Process σ τ → Except String (Option (VMState × Sys Process σ τ))
  | 0, _ => Except.ok none
  | fuel + 1, s => do
      match ← step I O s with
      | (StepResult.continue, s1) => execute I O fuel s1
      | (StepResult.blocked, s1) => Except.ok (some (VMState.Blocked, s1))
      | (StepResult.complete, s1) => Except.ok (some (VMState.Complete, s1))

end Day21

/-! ## The earlier VM variant, `src/7/src/process.rs` -/

namespace Day7

/-- Addressing modes of the earlier variant: no `Relative`. -/
inductive Mode where
  | Position
  | Immediate
deriving DecidableEq, Repr

/-- `Modes::mode` of the earlier variant:
`(modes / 10^index) % 10^(index+1)`, with Rust's truncating `i64`
operations.  (Note the formula differs from the one in `src/21`.) -/
def Modes.mode (modes : Int) (index : Nat) : Except String Mode :=
  let m := Int.tmod (Int.tdiv modes ((10 : Int) ^ index)) ((10 : Int) ^ (index + 1))
  if m = 0 then Except.ok Mode.Position
  else if m = 1 then Except.ok Mode.Immediate
  else Except.error "Unknown mode"

/-- A decoded parameter. -/
structure Parameter where
  mode : Mode
  value : Int
deriving DecidableEq, Repr

/-- `Parameter::resolve`. -/
def Parameter.resolve (param : Parameter) (memory : List Int) : Except String Int :=
  match param.mode with
  | Mode.Position => readMem memory (toUsize param.value)
  | Mode.Immediate => Except.ok param.value

/-- `Parameters::get`. -/
def Parameters.get (data : List Int) (modes : Int) (index : Nat) :
    Except String Parameter := do
  let m ← Modes.mode modes index
  match data[index]? with
  | some v => Except.ok ⟨m, v⟩
  | none => Except.error "index out of bounds"

/-- `Parameters::get_address`: `self.data[index] as usize` — the mode digit
of the parameter is not consulted at all. -/
def Parameters.get_address (data : List Int) (index : Nat) : Except String Nat :=
  match data[index]? with
  | some v => Except.ok (toUsize v)
  | none => Except.error "index out of bounds"

/-- Decoded instructions of the earlier variant: destinations are already
plain addresses. -/
inductive Instruction where
  | Add (x y : Parameter) (output : Nat)
  | Mul (x y : Parameter) (output : Nat)
  | Input (output : Nat)
  | Output (input : Parameter)
  | JumpIfTrue (input address : Parameter)
  | JumpIfFalse (input address : Parameter)
  | LessThan (x y : Parameter) (output : Nat)
  | Equals (x y : Parameter) (output : Nat)
  | Exit
deriving DecidableEq, Repr

/-- `Instruction::parse` of the earlier variant. -/
def Instruction.parse (data : List Int) : Except String Instruction := do
  match data[0]? with
  | none => Except.error "index out of bounds"
  | some w =>
    let opcode := Int.tmod w 100
    let modes := Int.tdiv w 100
    let ps := data.drop 1
    if opcode = 1 then do
      let x ← Parameters.get ps modes 0
      let y ← Parameters.get ps modes 1
      let output ← Parameters.get_address ps 2
      Except.ok (Instruction.Add x y output)
    else if opcode = 2 then do
      let x ← Parameters.get ps modes 0
      let y ← Parameters.get ps modes 1
      let output ← Parameters.get_address ps 2
      Except.ok (Instruction.Mul x y output)
    else if opcode = 3 then do
      let output ← Parameters.get_address ps 0
      Except.ok (Instruction.Input output)
    else if opcode = 4 then do
      let input ← Parameters.get ps modes 0
      Except.ok (Instruction.Output input)
    else if opcode = 5 then do
      let input ← Parameters.get ps modes 0
      let address ← Parameters.get ps modes 1
      Except.ok (Instruction.JumpIfTrue input address)
    else if opcode = 6 then do
      let input ← Parameters.get ps modes 0
      let address ← Parameters.get ps modes 1
      Except.ok (Instruction.JumpIfFalse input address)
    else if opcode = 7 then do
      let x ← Parameters.get ps modes 0
      let y ← Parameters.get ps modes 1
      let output ← Parameters.get_address ps 2
      Except.ok (Instruction.LessThan x y output)
    else if opcode = 8 then do
      let x ← Parameters.get ps modes 0
      let y ← Parameters.get ps modes 1
      let output ← Parameters.get_address ps 2
      Except.ok (Instruction.Equals x y output)
    else if opcode = 99 then Except.ok Instruction.Exit
    else Except.error "Unknown opcode"

/-- `Instruction::size`. -/
def Instruction.size : Instruction → Nat
  | Instruction.Add _ _ _ | Instruction.Mul _ _ _
  | Instruction.LessThan _ _ _ | Instruction.Equals _ _ _ => 4
  | Instruction.JumpIfTrue _ _ | Instruction.JumpIfFalse _ _ => 3
  | Instruction.Input _ | Instruction.Output _ => 2
  | Instruction.Exit => 1

/-- The VM state of the earlier variant: no relative base, and the memory is
exactly the program (no zero-filled tail). -/
structure Process where
  memory : List Int
  instruction_pointer : Nat
deriving DecidableEq, Repr

/-- `Process::new`: `memory: program.data.clone()`. -/
def Process.new (program : List Int) : Process := ⟨program, 0⟩

/-- One iteration of the loop body of the earlier `Process::execute`. -/
def step {σ τ : Type} (I : InputImpl σ) (O : OutputImpl τ)
    (s : Sys Process σ τ) : Except String (Day21.StepResult × Sys Process σ τ) := do
  let instr ← Instruction.parse (s.proc.memory.drop s.proc.instruction_pointer)
  let p : Process :=
    { s.proc with instruction_pointer := s.proc.instruction_pointer + instr.size }
  match instr with
  | Instruction.Add x y output => do
      let xv ← x.resolve p.memory
      let yv ← y.resolve p.memory
      let mem ← writeMem p.memory output (wrap64 (xv + yv))
      Except.ok (Day21.StepResult.continue, { s with proc := { p with memory := mem } })
  | Instruction.Mul x y output => do
      let xv ← x.resolve p.memory
      let yv ← y.resolve p.memory
      let mem ← writeMem p.memory output (wrap64 (xv * yv))
      Except.ok (Day21.StepResult.continue, { s with proc := { p with memory := mem } })
  | Instruction.Input output =>
      match I.get s.inp with
      | (some v, inp1) => do
          let mem ← writeMem p.memory output v
          Except.ok (Day21.StepResult.continue,
            { proc := { p with memory := mem }, inp := inp1, outp := s.outp })
      | (none, inp1) =>
          Except.ok (Day21.StepResult.blocked,
            { s with
              proc :=
                { p with
                  instruction_pointer := p.instruction_pointer - instr.size },
              inp := inp1 })
  | Instruction.Output input => do
      let v ← input.resolve p.memory
      Except.ok (Day21.StepResult.continue, { s with proc := p, outp := O.put s.outp v })
  | Instruction.JumpIfTrue input address => do
      let iv ← input.resolve p.memory
      if iv ≠ 0 then do
        let av ← address.resolve p.memory
        Except.ok (Day21.StepResult.continue,
          { s with proc := { p with instruction_pointer := toUsize av } })
      else Except.ok (Day21.StepResult.continue, { s with proc := p })
  | Instruction.JumpIfFalse input address => do
      let iv ← input.resolve p.memory
      if iv = 0 then do
        let av ← address.resolve p.memory
        Except.ok (Day21.StepResult.continue,
          { s with proc := { p with instruction_pointer := toUsize av } })
      else Except.ok (Day21.StepResult.continue, { s with proc := p })
  | Instruction.LessThan x y output => do
      let xv ← x.resolve p.memory
      let yv ← y.resolve p.memory
      let mem ← writeMem p.memory output (if xv < yv then 1 else 0)
      Except.ok (Day21.StepResult.continue, { s with proc := { p with memory := mem } })
  | Instruction.Equals x y output => do
      let xv ← x.resolve p.memory
      let yv ← y.resolve p.memory
      let mem ← writeMem p.memory output (if xv = yv then 1 else 0)
      Except.ok (Day21.StepResult.continue, { s with proc := { p with memory := mem } })
  | Instruction.Exit => Except.ok (Day21.StepResult.complete, { s with proc := p })

/-- The earlier `Process::execute`: loop `step` until `Blocked` or
`Complete`, bounded by fuel. -/
def execute {σ τ : Type} (I : InputImpl σ) (O : OutputImpl τ) :
    Nat → Sys Process σ τ → Except String (Option (VMState × Sys Process σ τ))
  | 0, _ => Except.ok none
  | fuel + 1, s => do
      match ← step I O s with
      | (Day21.StepResult.continue, s1) => execute I O fuel s1
      | (Day21.StepResult.blocked, s1) => Except.ok (some (VMState.Blocked, s1))
      | (Day21.StepResult.complete, s1) => Except.ok (some (VMState.Complete, s1))

end Day7

/-! ## The cooperative scheduler `run_to_completion`
(identical in `src/7` and `src/21`)

The Rust function is generic over the processes' endpoint types, and the
processes mutate shared channels.  The embedding is generic in the same
way: a process handle of type `α` executes against a shared world of type
`W` through `execP`, returning the `State` that `execute()` reports and the
updated world. -/

namespace Sched

/-- One sweep of the inner `for` loop: execute every process once, in
order, and keep (in order) those that did not report `Complete`. -/
def sweep {α W : Type} (execP : α → W → VMState × W) :
    List α → W → List α × W
  | [], w => ([], w)
  | p :: ps, w =>
      let r := execP p w
      let rest := sweep execP ps r.2
      (if r.1 = VMState.Complete then rest.1 else p :: rest.1, rest.2)

/-- The trace of states returned by one sweep, in process order. -/
def states {α W : Type} (execP : α → W → VMState × W) :
    List α → W → List VMState
  | [], _ => []
  | p :: ps, w =>
      let r := execP p w
      r.1 :: states execP ps r.2

/-- Keep a process whose `execute()` did not report `Complete`. -/
def keepPair {α : Type} (q : α × VMState) : Bool :=
  match q.2 with
  | VMState.Complete => false
  | VMState.Blocked => true

/-- Iterated sweeps. -/
def sweeps {α W : Type} (execP : α → W → VMState × W) :
    Nat → List α → W → List α × W
  | 0, ps, w => (ps, w)
  | k + 1, ps, w =>
      let r := sweep execP ps w
      sweeps execP k r.1 r.2

/-- `run_to_completion`: sweep until the active set is empty.  Fuel bounds
the number of sweeps; `none` means the loop was still running. -/
def run_to_completion {α W : Type} (execP : α → W → VMState × W) :
    Nat → List α → W → Option W
  | 0, ps, w => if ps.isEmpty then some w else none
  | fuel + 1, ps, w =>
      if ps.isEmpty then some w
      else
        let r := sweep execP ps w
        run_to_completion execP fuel r.1 r.2

end Sched

/-! ## The network layer of `src/23/src/main.rs`

The `Rc`/`RefCell` object graph (Router owning the NICs and the NAT, each
NIC holding the Router) is flattened into a single `Network` state; a NIC
is designated by its index in the Router's interface list, which is also
its network address. -/

namespace Day23

/-- `struct Nic` (without the `Rc<Router>` back-pointer, which is the
enclosing `Network`). -/
structure Nic where
  index : Int
  got_index : Bool
  got_input : Bool
  input_buffer : List Int
  output_buffer : List Int
deriving DecidableEq, Repr

/-- `Nic::new`. -/
def Nic.new (index : Int) : Nic :=
  { index := index
    got_index := false
    got_input := true
    input_buffer := []
    output_buffer := [] }

/-- `Nic::is_idle`. -/
def Nic.is_idle (n : Nic) : Bool :=
  n.input_buffer.isEmpty && n.output_buffer.isEmpty && !n.got_input

/-- `Nic::receive`: push `x` then `y` onto the input queue. -/
def Nic.receive (n : Nic) (x y : Int) : Nic :=
  { n with input_buffer := n.input_buffer ++ [x, y] }

/-- `impl Input<i64> for Rc<Nic>`: never returns "no value". -/
def Nic.get (n : Nic) : Int × Nic :=
  if !n.got_index then (n.index, { n with got_index := true })
  else
    match n.input_buffer with
    | v :: rest => (v, { n with input_buffer := rest, got_input := true })
    | [] => (-1, { n with got_input := false })

/-- The NIC as an input endpoint of a `Process`: `get` always yields
`Some`. -/
def nicInput : InputImpl Nic :=
  ⟨fun n => (some (Nic.get n).1, (Nic.get n).2)⟩

/-- `struct Nat` of `src/23` (renamed: `Nat` is taken in Lean). -/
structure NatDevice where
  buffer : Option (Int × Int)
  last_sent : Option (Int × Int)
deriving DecidableEq, Repr

/-- `Nat::new`. -/
def NatDevice.new : NatDevice := ⟨none, none⟩

/-- `Nat::receive`: overwrite the single buffered packet. -/
def NatDevice.receive (nat : NatDevice) (x y : Int) : NatDevice :=
  { nat with buffer := some (x, y) }

/-- The whole object graph: the Router's interface list and its NAT. -/
structure Network where
  interfaces : List Nic
  nat : NatDevice
deriving DecidableEq, Repr

/-- Replace interface `i` by `f` applied to it (no-op if out of range). -/
def Network.updateNic (net : Network) (i : Nat) (f : Nic → Nic) : Network :=
  match net.interfaces[i]? with
  | some nic => { net with interfaces := net.interfaces.set i (f nic) }
  | none => net

/-- `Router::send`: destination 255 goes to the NAT, any other destination
indexes the interface list (a panic — error — when out of range). -/
def Router.send (net : Network) (destination : Nat) (x y : Int) :
    Except String Network :=
  if destination = 255 then
    Except.ok { net with nat := net.nat.receive x y }
  else
    match net.interfaces[destination]? with
    | some nic =>
        Except.ok { net with interfaces := net.interfaces.set destination (nic.receive x y) }
    | none => Except.error "index out of bounds"

/-- `Router::network_idle`. -/
def Network.network_idle (net : Network) : Bool :=
  net.interfaces.all Nic.is_idle

/-- `impl Output<i64> for Rc<Nic>`, for the NIC at interface index `i`:
push onto the output-assembly buffer; on the third value, dispatch
`(destination, x, y)` through the Router and clear the buffer. -/
def Network.put (net : Network) (i : Nat) (value : Int) : Except String Network :=
  match net.interfaces[i]? with
  | none => Except.error "no such interface"
  | some nic =>
    let buf := nic.output_buffer ++ [value]
    match buf with
    | [d, x, y] => do
        let net1 : Network :=
          { net with interfaces := net.interfaces.set i { nic with output_buffer := buf } }
        let net2 ← Router.send net1 (toUsize d) x y
        Except.ok (net2.updateNic i (fun n => { n with output_buffer := [] }))
    | _ =>
        Except.ok
          { net with interfaces := net.interfaces.set i { nic with output_buffer := buf } }

/-- `Nat::poll` (through `Router::poll`): when the network is idle and a
packet is buffered, forward it to address 0, signal a stall (the
"Duplicate Packet" print) if it equals the previously forwarded pair, and
record it as last sent.  The Bool is the stall signal. -/
def Network.poll (net : Network) : Except String (Network × Bool) :=
  if net.network_idle then
    match net.nat.buffer with
    | some (x, y) => do
        let net1 ← Router.send net 0 x y
        let dup := net1.nat.last_sent = some (x, y)
        Except.ok
          ({ net1 with nat := { net1.nat with last_sent := some (x, y) } }, dup)
    | none => Except.ok (net, false)
  else Except.ok (net, false)

end Day23

/-! ## Helper lemmas -/

theorem except_bind_ok {α β : Type} (a : α) (f : α → Except String β) :
    (Except.ok a : Except String α) >>= f = f a := rfl

theorem except_bind_error {α β : Type} (e : String) (f : α → Except String β) :
    (Except.error e : Except String α) >>= f = Except.error e := rfl

theorem toUsize_of_lt {v : Int} (h0 : 0 ≤ v) (h1 : v < (USIZE : Int)) :
    toUsize v = v.toNat := by
  unfold toUsize
  rw [Int.emod_eq_of_lt h0 h1]

theorem wrap64_eq_self {x : Int} (h0 : -(2 ^ 63) ≤ x) (h1 : x < 2 ^ 63) :
    wrap64 x = x := by
  unfold wrap64
  have hlo : 0 ≤ x + 2 ^ 63 := by linarith
  have hhi : x + 2 ^ 63 < 2 ^ 64 := by norm_num at h1 ⊢; linarith
  rw [Int.emod_eq_of_lt hlo hhi]
  ring

theorem relAddr_eq {base : Nat} {v : Int} (h0 : 0 ≤ (base : Int) + v)
    (h1 : (base : Int) + v < (USIZE : Int)) :
    relAddr base v = ((base : Int) + v).toNat := by
  unfold relAddr
  exact toUsize_of_lt h0 h1

/-! ## Claim C9: the Channel is an unbounded FIFO -/

theorem channel_runOps_fifo {α : Type} (ops : List (Channel.Op α)) (c : Channel α) :
    (Channel.runOps c ops).2 ++ (Channel.runOps c ops).1 = c ++ Channel.putsOf ops := by
  induction ops generalizing c with
  | nil => simp [Channel.runOps, Channel.putsOf]
  | cons op rest ih =>
      cases op with
      | put v =>
          simp only [Channel.runOps, Channel.putsOf]
          rw [ih]
          simp [Channel.put]
      | get =>
          cases c with
          | nil =>
              simp only [Channel.runOps, Channel.putsOf, Channel.get]
              exact ih []
          | cons v cs =>
              simp only [Channel.runOps, Channel.putsOf, Channel.get, List.cons_append]
              rw [ih]

/-- C9: `Channel.get` removes and returns the oldest queued element, and on
an empty channel signals "no value" leaving the channel unchanged;
`Channel.put` appends to the tail unconditionally (it always succeeds and
returns the grown queue); and over any interleaving of operations the
successful `get` results followed by the remaining queue are exactly the
initial queue followed by the values put, in first-in-first-out order. -/
theorem claim_C9_channel_fifo :
    (∀ (α : Type) (v : α) (rest : List α), Channel.get (v :: rest) = (some v, rest))
    ∧ (∀ (α : Type), Channel.get ([] : Channel α) = (none, []))
    ∧ (∀ (α : Type) (c : Channel α) (v : α), Channel.put c v = c ++ [v])
    ∧ (∀ (α : Type) (c : Channel α) (ops : List (Channel.Op α)),
        (Channel.runOps c ops).2 ++ (Channel.runOps c ops).1
          = c ++ Channel.putsOf ops) :=
  ⟨fun _ _ _ => rfl, fun _ => rfl, fun _ _ _ => rfl,
   fun _ c ops => channel_runOps_fifo ops c⟩

/-! ## Claim C5: the scheduler's sweep discipline -/

theorem sched_states_length {α W : Type} (execP : α → W → VMState × W)
    (ps : List α) (w : W) : (Sched.states execP ps w).length = ps.length := by
  induction ps generalizing w with
  | nil => rfl
  | cons p ps ih => simp [Sched.states, ih]

theorem sched_sweep_filter {α W : Type} (execP : α → W → VMState × W)
    (ps : List α) (w : W) :
    (Sched.sweep execP ps w).1
      = ((ps.zip (Sched.states execP ps w)).filter Sched.keepPair).map Prod.fst := by
  induction ps generalizing w with
  | nil => rfl
  | cons p ps ih =>
      simp only [Sched.sweep, Sched.states, List.zip_cons_cons, List.filter_cons]
      cases h : (execP p w).1 with
      | Complete => simp [Sched.keepPair, ih]
      | Blocked => simp [Sched.keepPair, ih]

theorem sched_sweep_sublist {α W : Type} (execP : α → W → VMState × W)
    (ps : List α) (w : W) : (Sched.sweep execP ps w).1.Sublist ps := by
  induction ps generalizing w with
  | nil => simp [Sched.sweep]
  | cons p ps ih =>
      simp only [Sched.sweep]
      cases h : (execP p w).1 with
      | Complete => simpa using (ih _).cons p
      | Blocked => simpa using (ih _).cons₂ p

theorem sched_sweeps_sublist {α W : Type} (execP : α → W → VMState × W)
    (k : Nat) (ps : List α) (w : W) :
    (Sched.sweeps execP k ps w).1.Sublist ps := by
  induction k generalizing ps w with
  | zero => simp [Sched.sweeps]
  | succ k ih =>
      simp only [Sched.sweeps]
      exact (ih _ _).trans (sched_sweep_sublist execP ps w)

theorem sched_sweeps_nil {α W : Type} (execP : α → W → VMState × W)
    (k : Nat) (w : W) : Sched.sweeps execP k [] w = ([], w) := by
  induction k with
  | zero => rfl
  | succ k ih => simpa [Sched.sweeps, Sched.sweep] using ih

theorem sched_run_iff {α W : Type} (execP : α → W → VMState × W)
    (fuel : Nat) (ps : List α) (w : W) (w' : W) :
    Sched.run_to_completion execP fuel ps w = some w' ↔
      ∃ k, k ≤ fuel ∧ Sched.sweeps execP k ps w = ([], w') := by
  induction fuel generalizing ps w with
  | zero =>
      cases ps with
      | nil =>
          simp only [Sched.run_to_completion, List.isEmpty_nil, if_true,
            Option.some_inj, Nat.le_zero]
          constructor
          · rintro rfl
            exact ⟨0, rfl, rfl⟩
          · rintro ⟨k, rfl, hk⟩
            exact (Prod.ext_iff.mp hk).2
      | cons p ps =>
          simp only [Sched.run_to_completion, List.isEmpty_cons,
            Bool.false_eq_true, if_false, Nat.le_zero]
          constructor
          · intro h
            exact absurd h (by simp)
          · rintro ⟨k, rfl, hk⟩
            simp [Sched.sweeps] at hk
  | succ fuel ih =>
      cases ps with
      | nil =>
          simp only [Sched.run_to_completion, List.isEmpty_nil, if_true,
            Option.some_inj]
          constructor
          · rintro rfl
            exact ⟨0, Nat.zero_le _, rfl⟩
          · rintro ⟨k, _, hk⟩
            rw [sched_sweeps_nil] at hk
            exact (Prod.ext_iff.mp hk).2
      | cons p ps =>
          simp only [Sched.run_to_completion, List.isEmpty_cons,
            Bool.false_eq_true, if_false]
          rw [ih]
          constructor
          · rintro ⟨k, hk, hs⟩
            exact ⟨k + 1, Nat.succ_le_succ hk, hs⟩
          · rintro ⟨k, hk, hs⟩
            cases k with
            | zero => simp [Sched.sweeps] at hs
            | succ k => exact ⟨k, Nat.le_of_succ_le_succ hk, hs⟩

/-- C5: one sweep calls `execute()` exactly once on each active process (the
trace of returned states has one entry per process, in order); the surviving
active set is exactly the processes whose call did not return `Complete`,
in order; the active set only ever shrinks (a removed process is never
executed again, in this or any later sweep); and `run_to_completion`
returns exactly when some number of sweeps within the fuel bound empties
the active set. -/
theorem claim_C5_run_to_completion :
    (∀ (α W : Type) (execP : α → W → VMState × W) (ps : List α) (w : W),
        (Sched.states execP ps w).length = ps.length)
    ∧ (∀ (α W : Type) (execP : α → W → VMState × W) (ps : List α) (w : W),
        (Sched.sweep execP ps w).1
          = ((ps.zip (Sched.states execP ps w)).filter Sched.keepPair).map Prod.fst)
    ∧ (∀ (α W : Type) (execP : α → W → VMState × W) (ps : List α) (w : W),
        (Sched.sweep execP ps w).1.Sublist ps)
    ∧ (∀ (α W : Type) (execP : α → W → VMState × W) (ps : List α) (w : W)
        (p : α) (k : Nat), p ∉ (Sched.sweep execP ps w).1 → 1 ≤ k →
        p ∉ (Sched.sweeps execP k ps w).1)
    ∧ (∀ (α W : Type) (execP : α → W → VMState × W) (fuel : Nat) (ps : List α)
        (w w' : W),
        Sched.run_to_completion execP fuel ps w = some w' ↔
          ∃ k, k ≤ fuel ∧ Sched.sweeps execP k ps w = ([], w')) := by
  refine ⟨@sched_states_length, @sched_sweep_filter, @sched_sweep_sublist, ?_, @sched_run_iff⟩
  intro α W execP ps w p k hnot hk hmem
  cases k with
  | zero => exact absurd hk (by simp)
  | succ k =>
      apply hnot
      have hsub := sched_sweeps_sublist execP k (Sched.sweep execP ps w).1
        (Sched.sweep execP ps w).2
      exact hsub.subset hmem

/-- Witness for C5 at concrete inputs: two processes, the first completes on
its first call, the second blocks once and completes on the second sweep. -/
theorem claim_C5_witness :
    ((0 : Nat) ∉ (Sched.sweeps
        (fun (p : Nat) (w : Nat) =>
          (if p = 0 then VMState.Complete
           else if 3 ≤ w then VMState.Complete else VMState.Blocked, w + 1))
        2 [0, 1] 0).1)
    ∧ (Sched.run_to_completion
        (fun (p : Nat) (w : Nat) =>
          (if p = 0 then VMState.Complete
           else if 3 ≤ w then VMState.Complete else VMState.Blocked, w + 1))
        3 [0, 1] 0 = some 4) := by
  constructor
  · exact claim_C5_run_to_completion.2.2.2.1 Nat Nat _ [0, 1] 0 0 2 (by decide) (by decide)
  · rw [claim_C5_run_to_completion.2.2.2.2 Nat Nat _ 3 [0, 1] 0 4]
    exact ⟨3, by decide, by decide⟩

/-! ## Claim C1: instruction semantics of the later VM -/

theorem day21_resolve_ip (mem : List Int) (ip1 ip2 rb : Nat) (param : Day21.Parameter) :
    Day21.Process.resolve ⟨mem, ip1, rb⟩ param = Day21.Process.resolve ⟨mem, ip2, rb⟩ param := rfl

theorem day21_resolve_address_ip (mem : List Int) (ip1 ip2 rb : Nat)
    (param : Day21.Parameter) :
    Day21.Process.resolve_address ⟨mem, ip1, rb⟩ param
      = Day21.Process.resolve_address ⟨mem, ip2, rb⟩ param := rfl

theorem day21_step_add (σ τ : Type) (I : InputImpl σ) (O : OutputImpl τ)
    (s : Sys Day21.Process σ τ) (x y o : Day21.Parameter) (xv yv : Int)
    (mem' : List Int)
    (hp : Day21.Instruction.parse (s.proc.memory.drop s.proc.instruction_pointer)
        = Except.ok (Day21.Instruction.Add x y o))
    (hx : s.proc.resolve x = Except.ok xv)
    (hy : s.proc.resolve y = Except.ok yv)
    (hlo : -(2 ^ 63) ≤ xv + yv) (hhi : xv + yv < 2 ^ 63)
    (hw : writeMem s.proc.memory (s.proc.resolve_address o) (xv + yv)
        = Except.ok mem') :
    Day21.step I O s = Except.ok (Day21.StepResult.continue,
      { s with
        proc := { s.proc with
                  memory := mem'
                  instruction_pointer := s.proc.instruction_pointer + 4 } }) := by
  obtain ⟨⟨mem, ip, rb⟩, inp, outp⟩ := s
  simp only at hp hx hy hw ⊢
  have hx4 : Day21.Process.resolve ⟨mem, ip + 4, rb⟩ x = Except.ok xv :=
    (day21_resolve_ip mem (ip + 4) ip rb x).trans hx
  have hy4 : Day21.Process.resolve ⟨mem, ip + 4, rb⟩ y = Except.ok yv :=
    (day21_resolve_ip mem (ip + 4) ip rb y).trans hy
  have hw4 : writeMem mem (Day21.Process.resolve_address ⟨mem, ip + 4, rb⟩ o)
      (wrap64 (xv + yv)) = Except.ok mem' := by
    rw [day21_resolve_address_ip mem (ip + 4) ip rb o, wrap64_eq_self hlo hhi]
    exact hw
  simp only [Day21.step, hp, except_bind_ok, Day21.Instruction.size, hx4, hy4, hw4]

theorem day21_resolve_immediate (p : Day21.Process) (v : Int) :
    p.resolve ⟨Day21.Mode.Immediate, v⟩ = Except.ok v := rfl

theorem day21_resolve_position (p : Day21.Process) (v x : Int)
    (h0 : 0 ≤ v) (h1 : v < (USIZE : Int))
    (hm : p.memory[v.toNat]? = some x) :
    p.resolve ⟨Day21.Mode.Position, v⟩ = Except.ok x := by
  simp [Day21.Process.resolve, readMem, toUsize_of_lt h0 h1, hm]

theorem day21_resolve_relative (p : Day21.Process) (v x : Int)
    (h0 : 0 ≤ (p.relative_base : Int) + v)
    (h1 : (p.relative_base : Int) + v < (USIZE : Int))
    (hm : p.memory[((p.relative_base : Int) + v).toNat]? = some x) :
    p.resolve ⟨Day21.Mode.Relative, v⟩ = Except.ok x := by
  simp [Day21.Process.resolve, readMem, relAddr_eq h0 h1, hm]

theorem day21_step_mul (σ τ : Type) (I : InputImpl σ) (O : OutputImpl τ)
    (s : Sys Day21.Process σ τ) (x y o : Day21.Parameter) (xv yv : Int)
    (mem' : List Int)
    (hp : Day21.Instruction.parse (s.proc.memory.drop s.proc.instruction_pointer)
        = Except.ok (Day21.Instruction.Mul x y o))
    (hx : s.proc.resolve x = Except.ok xv)
    (hy : s.proc.resolve y = Except.ok yv)
    (hlo : -(2 ^ 63) ≤ xv * yv) (hhi : xv * yv < 2 ^ 63)
    (hw : writeMem s.proc.memory (s.proc.resolve_address o) (xv * yv)
        = Except.ok mem') :
    Day21.step I O s = Except.ok (Day21.StepResult.continue,
      { s with
        proc := { s.proc with
                  memory := mem'
                  instruction_pointer := s.proc.instruction_pointer + 4 } }) := by
  obtain ⟨⟨mem, ip, rb⟩, inp, outp⟩ := s
  simp only at hp hx hy hw ⊢
  have hx4 : Day21.Process.resolve ⟨mem, ip + 4, rb⟩ x = Except.ok xv :=
    (day21_resolve_ip mem (ip + 4) ip rb x).trans hx
  have hy4 : Day21.Process.resolve ⟨mem, ip + 4, rb⟩ y = Except.ok yv :=
    (day21_resolve_ip mem (ip + 4) ip rb y).trans hy
  have hw4 : writeMem mem (Day21.Process.resolve_address ⟨mem, ip + 4, rb⟩ o)
      (wrap64 (xv * yv)) = Except.ok mem' := by
    rw [day21_resolve_address_ip mem (ip + 4) ip rb o, wrap64_eq_self hlo hhi]
    exact hw
  simp only [Day21.step, hp, except_bind_ok, Day21.Instruction.size, hx4, hy4, hw4]

theorem day21_step_less_than (σ τ : Type) (I : InputImpl σ) (O : OutputImpl τ)
    (s : Sys Day21.Process σ τ) (x y o : Day21.Parameter) (xv yv : Int)
    (mem' : List Int)
    (hp : Day21.Instruction.parse (s.proc.memory.drop s.proc.instruction_pointer)
        = Except.ok (Day21.Instruction.LessThan x y o))
    (hx : s.proc.resolve x = Except.ok xv)
    (hy : s.proc.resolve y = Except.ok yv)
    (hw : writeMem s.proc.memory (s.proc.resolve_address o)
        (if xv < yv then 1 else 0) = Except.ok mem') :
    Day21.step I O s = Except.ok (Day21.StepResult.continue,
      { s with
        proc := { s.proc with
                  memory := mem'
                  instruction_pointer := s.proc.instruction_pointer + 4 } }) := by
  obtain ⟨⟨mem, ip, rb⟩, inp, outp⟩ := s
  simp only at hp hx hy hw ⊢
  have hx4 : Day21.Process.resolve ⟨mem, ip + 4, rb⟩ x = Except.ok xv :=
    (day21_resolve_ip mem (ip + 4) ip rb x).trans hx
  have hy4 : Day21.Process.resolve ⟨mem, ip + 4, rb⟩ y = Except.ok yv :=
    (day21_resolve_ip mem (ip + 4) ip rb y).trans hy
  have hw4 : writeMem mem (Day21.Process.resolve_address ⟨mem, ip + 4, rb⟩ o)
      (if xv < yv then 1 else 0) = Except.ok mem' := by
    rw [day21_resolve_address_ip mem (ip + 4) ip rb o]
    exact hw
  simp only [Day21.step, hp, except_bind_ok, Day21.Instruction.size, hx4, hy4, hw4]

theorem day21_step_equals (σ τ : Type) (I : InputImpl σ) (O : OutputImpl τ)
    (s : Sys Day21.Process σ τ) (x y o : Day21.Parameter) (xv yv : Int)
    (mem' : List Int)
    (hp : Day21.Instruction.parse (s.proc.memory.drop s.proc.instruction_pointer)
        = Except.ok (Day21.Instruction.Equals x y o))
    (hx : s.proc.resolve x = Except.ok xv)
    (hy : s.proc.resolve y = Except.ok yv)
    (hw : writeMem s.proc.memory (s.proc.resolve_address o)
        (if xv = yv then 1 else 0) = Except.ok mem') :
    Day21.step I O s = Except.ok (Day21.StepResult.continue,
      { s with
        proc := { s.proc with
                  memory := mem'
                  instruction_pointer := s.proc.instruction_pointer + 4 } }) := by
  obtain ⟨⟨mem, ip, rb⟩, inp, outp⟩ := s
  simp only at hp hx hy hw ⊢
  have hx4 : Day21.Process.resolve ⟨mem, ip + 4, rb⟩ x = Except.ok xv :=
    (day21_resolve_ip mem (ip + 4) ip rb x).trans hx
  have hy4 : Day21.Process.resolve ⟨mem, ip + 4, rb⟩ y = Except.ok yv :=
    (day21_resolve_ip mem (ip + 4) ip rb y).trans hy
  have hw4 : writeMem mem (Day21.Process.resolve_address ⟨mem, ip + 4, rb⟩ o)
      (if xv = yv then 1 else 0) = Except.ok mem' := by
    rw [day21_resolve_address_ip mem (ip + 4) ip rb o]
    exact hw
  simp only [Day21.step, hp, except_bind_ok, Day21.Instruction.size, hx4, hy4, hw4]

theorem day21_step_output (σ τ : Type) (I : InputImpl σ) (O : OutputImpl τ)
    (s : Sys Day21.Process σ τ) (i : Day21.Parameter) (v : Int)
    (hp : Day21.Instruction.parse (s.proc.memory.drop s.proc.instruction_pointer)
        = Except.ok (Day21.Instruction.Output i))
    (hv : s.proc.resolve i = Except.ok v) :
    Day21.step I O s = Except.ok (Day21.StepResult.continue,
      { s with
        proc := { s.proc with
                  instruction_pointer := s.proc.instruction_pointer + 2 }
        outp := O.put s.outp v }) := by
  obtain ⟨⟨mem, ip, rb⟩, inp, outp⟩ := s
  simp only at hp hv ⊢
  have hv2 : Day21.Process.resolve ⟨mem, ip + 2, rb⟩ i = Except.ok v :=
    (day21_resolve_ip mem (ip + 2) ip rb i).trans hv
  simp only [Day21.step, hp, except_bind_ok, Day21.Instruction.size, hv2]

theorem day21_step_jump_if_true_taken (σ τ : Type) (I : InputImpl σ)
    (O : OutputImpl τ) (s : Sys Day21.Process σ τ) (i a : Day21.Parameter)
    (iv av : Int)
    (hp : Day21.Instruction.parse (s.proc.memory.drop s.proc.instruction_pointer)
        = Except.ok (Day21.Instruction.JumpIfTrue i a))
    (hiv : s.proc.resolve i = Except.ok iv) (hne : iv ≠ 0)
    (hav : s.proc.resolve a = Except.ok av)
    (h0 : 0 ≤ av) (h1 : av < (USIZE : Int)) :
    Day21.step I O s = Except.ok (Day21.StepResult.continue,
      { s with
        proc := { s.proc with instruction_pointer := av.toNat } }) := by
  obtain ⟨⟨mem, ip, rb⟩, inp, outp⟩ := s
  simp only at hp hiv hav ⊢
  have hiv3 : Day21.Process.resolve ⟨mem, ip + 3, rb⟩ i = Except.ok iv :=
    (day21_resolve_ip mem (ip + 3) ip rb i).trans hiv
  have hav3 : Day21.Process.resolve ⟨mem, ip + 3, rb⟩ a = Except.ok av :=
    (day21_resolve_ip mem (ip + 3) ip rb a).trans hav
  simp only [Day21.step, hp, except_bind_ok, Day21.Instruction.size, hiv3, hav3,
    ne_eq, hne, not_false_iff, if_true, toUsize_of_lt h0 h1]

theorem day21_step_jump_if_true_not_taken (σ τ : Type) (I : InputImpl σ)
    (O : OutputImpl τ) (s : Sys Day21.Process σ τ) (i a : Day21.Parameter)
    (hp : Day21.Instruction.parse (s.proc.memory.drop s.proc.instruction_pointer)
        = Except.ok (Day21.Instruction.JumpIfTrue i a))
    (hiv : s.proc.resolve i = Except.ok 0) :
    Day21.step I O s = Except.ok (Day21.StepResult.continue,
      { s with
        proc := { s.proc with
                  instruction_pointer := s.proc.instruction_pointer + 3 } }) := by
  obtain ⟨⟨mem, ip, rb⟩, inp, outp⟩ := s
  simp only at hp hiv ⊢
  have hiv3 : Day21.Process.resolve ⟨mem, ip + 3, rb⟩ i = Except.ok 0 :=
    (day21_resolve_ip mem (ip + 3) ip rb i).trans hiv
  simp only [Day21.step, hp, except_bind_ok, Day21.Instruction.size, hiv3]
  simp

theorem day21_step_jump_if_false_taken (σ τ : Type) (I : InputImpl σ)
    (O : OutputImpl τ) (s : Sys Day21.Process σ τ) (i a : Day21.Parameter)
    (av : Int)
    (hp : Day21.Instruction.parse (s.proc.memory.drop s.proc.instruction_pointer)
        = Except.ok (Day21.Instruction.JumpIfFalse i a))
    (hiv : s.proc.resolve i = Except.ok 0)
    (hav : s.proc.resolve a = Except.ok av)
    (h0 : 0 ≤ av) (h1 : av < (USIZE : Int)) :
    Day21.step I O s = Except.ok (Day21.StepResult.continue,
      { s with
        proc := { s.proc with instruction_pointer := av.toNat } }) := by
  obtain ⟨⟨mem, ip, rb⟩, inp, outp⟩ := s
  simp only at hp hiv hav ⊢
  have hiv3 : Day21.Process.resolve ⟨mem, ip + 3, rb⟩ i = Except.ok 0 :=
    (day21_resolve_ip mem (ip + 3) ip rb i).trans hiv
  have hav3 : Day21.Process.resolve ⟨mem, ip + 3, rb⟩ a = Except.ok av :=
    (day21_resolve_ip mem (ip + 3) ip rb a).trans hav
  simp only [Day21.step, hp, except_bind_ok, Day21.Instruction.size, hiv3, hav3,
    if_true, toUsize_of_lt h0 h1]

theorem day21_step_jump_if_false_not_taken (σ τ : Type) (I : InputImpl σ)
    (O : OutputImpl τ) (s : Sys Day21.Process σ τ) (i a : Day21.Parameter)
    (iv : Int)
    (hp : Day21.Instruction.parse (s.proc.memory.drop s.proc.instruction_pointer)
        = Except.ok (Day21.Instruction.JumpIfFalse i a))
    (hiv : s.proc.resolve i = Except.ok iv) (hne : iv ≠ 0) :
    Day21.step I O s = Except.ok (Day21.StepResult.continue,
      { s with
        proc := { s.proc with
                  instruction_pointer := s.proc.instruction_pointer + 3 } }) := by
  obtain ⟨⟨mem, ip, rb⟩, inp, outp⟩ := s
  simp only at hp hiv ⊢
  have hiv3 : Day21.Process.resolve ⟨mem, ip + 3, rb⟩ i = Except.ok iv :=
    (day21_resolve_ip mem (ip + 3) ip rb i).trans hiv
  simp only [Day21.step, hp, except_bind_ok, Day21.Instruction.size, hiv3, hne,
    if_false]

theorem day21_step_relative_base_offset (σ τ : Type) (I : InputImpl σ)
    (O : OutputImpl τ) (s : Sys Day21.Process σ τ) (off : Day21.Parameter)
    (ov : Int)
    (hp : Day21.Instruction.parse (s.proc.memory.drop s.proc.instruction_pointer)
        = Except.ok (Day21.Instruction.RelativeBaseOffset off))
    (hov : s.proc.resolve off = Except.ok ov)
    (h0 : 0 ≤ (s.proc.relative_base : Int) + ov)
    (h1 : (s.proc.relative_base : Int) + ov < (USIZE : Int)) :
    Day21.step I O s = Except.ok (Day21.StepResult.continue,
      { s with
        proc := { s.proc with
                  instruction_pointer := s.proc.instruction_pointer + 2
                  relative_base := ((s.proc.relative_base : Int) + ov).toNat } }) := by
  obtain ⟨⟨mem, ip, rb⟩, inp, outp⟩ := s
  simp only at hp hov h0 h1 ⊢
  have hov2 : Day21.Process.resolve ⟨mem, ip + 2, rb⟩ off = Except.ok ov :=
    (day21_resolve_ip mem (ip + 2) ip rb off).trans hov
  simp only [Day21.step, hp, except_bind_ok, Day21.Instruction.size, hov2,
    relAddr_eq h0 h1]

theorem day21_step_exit (σ τ : Type) (I : InputImpl σ) (O : OutputImpl τ)
    (s : Sys Day21.Process σ τ)
    (hp : Day21.Instruction.parse (s.proc.memory.drop s.proc.instruction_pointer)
        = Except.ok Day21.Instruction.Exit) :
    Day21.step I O s = Except.ok (Day21.StepResult.complete,
      { s with
        proc := { s.proc with
                  instruction_pointer := s.proc.instruction_pointer + 1 } }) := by
  obtain ⟨⟨mem, ip, rb⟩, inp, outp⟩ := s
  simp only at hp ⊢
  simp only [Day21.step, hp, except_bind_ok, Day21.Instruction.size]

/-- C1: read-parameter resolution follows the mode table (Position yields
`mem[value]`, Immediate yields the value itself, Relative yields
`mem[relative_base + value]`), and each opcode of the later VM has exactly
the tabulated effect on the process state, the instruction pointer, the
relative base and the output sink; opcode 99 stops and reports Complete.
(Arithmetic results are stated under the no-overflow side condition, the
spec leaving `i64` overflow behaviour unspecified; addresses are stated
under the in-range side conditions that make the Rust `as usize` casts
value-preserving.) -/
theorem claim_C1_instruction_semantics :
    (∀ (p : Day21.Process) (v : Int),
        p.resolve ⟨Day21.Mode.Immediate, v⟩ = Except.ok v)
    ∧ (∀ (p : Day21.Process) (v x : Int), 0 ≤ v → v < (USIZE : Int) →
        p.memory[v.toNat]? = some x →
        p.resolve ⟨Day21.Mode.Position, v⟩ = Except.ok x)
    ∧ (∀ (p : Day21.Process) (v x : Int), 0 ≤ (p.relative_base : Int) + v →
        (p.relative_base : Int) + v < (USIZE : Int) →
        p.memory[((p.relative_base : Int) + v).toNat]? = some x →
        p.resolve ⟨Day21.Mode.Relative, v⟩ = Except.ok x)
    ∧ (∀ (σ τ : Type) (I : InputImpl σ) (O : OutputImpl τ)
        (s : Sys Day21.Process σ τ) (x y o : Day21.Parameter) (xv yv : Int)
        (mem' : List Int),
        Day21.Instruction.parse (s.proc.memory.drop s.proc.instruction_pointer)
            = Except.ok (Day21.Instruction.Add x y o) →
        s.proc.resolve x = Except.ok xv → s.proc.resolve y = Except.ok yv →
        -(2 ^ 63) ≤ xv + yv → xv + yv < 2 ^ 63 →
        writeMem s.proc.memory (s.proc.resolve_address o) (xv + yv)
            = Except.ok mem' →
        Day21.step I O s = Except.ok (Day21.StepResult.continue,
          { s with
            proc := { s.proc with
                      memory := mem'
                      instruction_pointer := s.proc.instruction_pointer + 4 } }))
    ∧ (∀ (σ τ : Type) (I : InputImpl σ) (O : OutputImpl τ)
        (s : Sys Day21.Process σ τ) (x y o : Day21.Parameter) (xv yv : Int)
        (mem' : List Int),
        Day21.Instruction.parse (s.proc.memory.drop s.proc.instruction_pointer)
            = Except.ok (Day21.Instruction.Mul x y o) →
        s.proc.resolve x = Except.ok xv → s.proc.resolve y = Except.ok yv →
        -(2 ^ 63) ≤ xv * yv → xv * yv < 2 ^ 63 →
        writeMem s.proc.memory (s.proc.resolve_address o) (xv * yv)
            = Except.ok mem' →
        Day21.step I O s = Except.ok (Day21.StepResult.continue,
          { s with
            proc := { s.proc with
                      memory := mem'
                      instruction_pointer := s.proc.instruction_pointer + 4 } }))
    ∧ (∀ (σ τ : Type) (I : InputImpl σ) (O : OutputImpl τ)
        (s : Sys Day21.Process σ τ) (x y o : Day21.Parameter) (xv yv : Int)
        (mem' : List Int),
        Day21.Instruction.parse (s.proc.memory.drop s.proc.instruction_pointer)
            = Except.ok (Day21.Instruction.LessThan x y o) →
        s.proc.resolve x = Except.ok xv → s.proc.resolve y = Except.ok yv →
        writeMem s.proc.memory (s.proc.resolve_address o)
            (if xv < yv then 1 else 0) = Except.ok mem' →
        Day21.step I O s = Except.ok (Day21.StepResult.continue,
          { s with
            proc := { s.proc with
                      memory := mem'
                      instruction_pointer := s.proc.instruction_pointer + 4 } }))
    ∧ (∀ (σ τ : Type) (I : InputImpl σ) (O : OutputImpl τ)
        (s : Sys Day21.Process σ τ) (x y o : Day21.Parameter) (xv yv : Int)
        (mem' : List Int),
        Day21.Instruction.parse (s.proc.memory.drop s.proc.instruction_pointer)
            = Except.ok (Day21.Instruction.Equals x y o) →
        s.proc.resolve x = Except.ok xv → s.proc.resolve y = Except.ok yv →
        writeMem s.proc.memory (s.proc.resolve_address o)
            (if xv = yv then 1 else 0) = Except.ok mem' →
        Day21.step I O s = Except.ok (Day21.StepResult.continue,
          { s with
            proc := { s.proc with
                      memory := mem'
                      instruction_pointer := s.proc.instruction_pointer + 4 } }))
    ∧ (∀ (σ τ : Type) (I : InputImpl σ) (O : OutputImpl τ)
        (s : Sys Day21.Process σ τ) (i : Day21.Parameter) (v : Int),
        Day21.Instruction.parse (s.proc.memory.drop s.proc.instruction_pointer)
            = Except.ok (Day21.Instruction.Output i) →
        s.proc.resolve i = Except.ok v →
        Day21.step I O s = Except.ok (Day21.StepResult.continue,
          { s with
            proc := { s.proc with
                      instruction_pointer := s.proc.instruction_pointer + 2 }
            outp := O.put s.outp v }))
    ∧ (∀ (σ τ : Type) (I : InputImpl σ) (O : OutputImpl τ)
        (s : Sys Day21.Process σ τ) (i a : Day21.Parameter) (iv av : Int),
        Day21.Instruction.parse (s.proc.memory.drop s.proc.instruction_pointer)
            = Except.ok (Day21.Instruction.JumpIfTrue i a) →
        s.proc.resolve i = Except.ok iv → iv ≠ 0 →
        s.proc.resolve a = Except.ok av → 0 ≤ av → av < (USIZE : Int) →
        Day21.step I O s = Except.ok (Day21.StepResult.continue,
          { s with
            proc := { s.proc with instruction_pointer := av.toNat } }))
    ∧ (∀ (σ τ : Type) (I : InputImpl σ) (O : OutputImpl τ)
        (s : Sys Day21.Process σ τ) (i a : Day21.Parameter),
        Day21.Instruction.parse (s.proc.memory.drop s.proc.instruction_pointer)
            = Except.ok (Day21.Instruction.JumpIfTrue i a) →
        s.proc.resolve i = Except.ok 0 →
        Day21.step I O s = Except.ok (Day21.StepResult.continue,
          { s with
            proc := { s.proc with
                      instruction_pointer := s.proc.instruction_pointer + 3 } }))
    ∧ (∀ (σ τ : Type) (I : InputImpl σ) (O : OutputImpl τ)
        (s : Sys Day21.Process σ τ) (i a : Day21.Parameter) (av : Int),
        Day21.Instruction.parse (s.proc.memory.drop s.proc.instruction_pointer)
            = Except.ok (Day21.Instruction.JumpIfFalse i a) →
        s.proc.resolve i = Except.ok 0 →
        s.proc.resolve a = Except.ok av → 0 ≤ av → av < (USIZE : Int) →
        Day21.step I O s = Except.ok (Day21.StepResult.continue,
          { s with
            proc := { s.proc with instruction_pointer := av.toNat } }))
    ∧ (∀ (σ τ : Type) (I : InputImpl σ) (O : OutputImpl τ)
        (s : Sys Day21.Process σ τ) (i a : Day21.Parameter) (iv : Int),
        Day21.Instruction.parse (s.proc.memory.drop s.proc.instruction_pointer)
            = Except.ok (Day21.Instruction.JumpIfFalse i a) →
        s.proc.resolve i = Except.ok iv → iv ≠ 0 →
        Day21.step I O s = Except.ok (Day21.StepResult.continue,
          { s with
            proc := { s.proc with
                      instruction_pointer := s.proc.instruction_pointer + 3 } }))
    ∧ (∀ (σ τ : Type) (I : InputImpl σ) (O : OutputImpl τ)
        (s : Sys Day21.Process σ τ) (off : Day21.Parameter) (ov : Int),
        Day21.Instruction.parse (s.proc.memory.drop s.proc.instruction_pointer)
            = Except.ok (Day21.Instruction.RelativeBaseOffset off) →
        s.proc.resolve off = Except.ok ov →
        0 ≤ (s.proc.relative_base : Int) + ov →
        (s.proc.relative_base : Int) + ov < (USIZE : Int) →
        Day21.step I O s = Except.ok (Day21.StepResult.continue,
          { s with
            proc := { s.proc with
                      instruction_pointer := s.proc.instruction_pointer + 2
                      relative_base := ((s.proc.relative_base : Int) + ov).toNat } }))
    ∧ (∀ (σ τ : Type) (I : InputImpl σ) (O : OutputImpl τ)
        (s : Sys Day21.Process σ τ),
        Day21.Instruction.parse (s.proc.memory.drop s.proc.instruction_pointer)
            = Except.ok Day21.Instruction.Exit →
        Day21.step I O s = Except.ok (Day21.StepResult.complete,
          { s with
            proc := { s.proc with
                      instruction_pointer := s.proc.instruction_pointer + 1 } })) :=
  ⟨day21_resolve_immediate, day21_resolve_position, day21_resolve_relative,
   day21_step_add, day21_step_mul, day21_step_less_than, day21_step_equals,
   day21_step_output, day21_step_jump_if_true_taken,
   day21_step_jump_if_true_not_taken, day21_step_jump_if_false_taken,
   day21_step_jump_if_false_not_taken, day21_step_relative_base_offset,
   day21_step_exit⟩

/-- Witness for C1: each conjunct applied at a concrete machine state. -/
theorem claim_C1_witness :
    (Day21.Process.resolve ⟨[], 0, 0⟩ ⟨Day21.Mode.Immediate, 7⟩ = Except.ok 7)
    ∧ (Day21.Process.resolve ⟨[5, 9], 0, 0⟩ ⟨Day21.Mode.Position, 1⟩
        = Except.ok 9)
    ∧ (Day21.Process.resolve ⟨[5, 9, 13], 0, 2⟩ ⟨Day21.Mode.Relative, 0⟩
        = Except.ok 13)
    ∧ (Day21.step chanInput chanOutput ⟨⟨[1101, 2, 3, 5, 99, 0], 0, 0⟩, [], []⟩
        = Except.ok (Day21.StepResult.continue,
            ⟨⟨[1101, 2, 3, 5, 99, 5], 4, 0⟩, [], []⟩))
    ∧ (Day21.step chanInput chanOutput ⟨⟨[1102, 6, 7, 5, 99, 0], 0, 0⟩, [], []⟩
        = Except.ok (Day21.StepResult.continue,
            ⟨⟨[1102, 6, 7, 5, 99, 42], 4, 0⟩, [], []⟩))
    ∧ (Day21.step chanInput chanOutput ⟨⟨[1107, 2, 3, 5, 99, 0], 0, 0⟩, [], []⟩
        = Except.ok (Day21.StepResult.continue,
            ⟨⟨[1107, 2, 3, 5, 99, 1], 4, 0⟩, [], []⟩))
    ∧ (Day21.step chanInput chanOutput ⟨⟨[1108, 3, 3, 5, 99, 0], 0, 0⟩, [], []⟩
        = Except.ok (Day21.StepResult.continue,
            ⟨⟨[1108, 3, 3, 5, 99, 1], 4, 0⟩, [], []⟩))
    ∧ (Day21.step chanInput chanOutput ⟨⟨[104, 7, 99], 0, 0⟩, [], []⟩
        = Except.ok (Day21.StepResult.continue, ⟨⟨[104, 7, 99], 2, 0⟩, [], [7]⟩))
    ∧ (Day21.step chanInput chanOutput ⟨⟨[1105, 1, 4, 99, 99], 0, 0⟩, [], []⟩
        = Except.ok (Day21.StepResult.continue, ⟨⟨[1105, 1, 4, 99, 99], 4, 0⟩, [], []⟩))
    ∧ (Day21.step chanInput chanOutput ⟨⟨[1105, 0, 4, 99, 99], 0, 0⟩, [], []⟩
        = Except.ok (Day21.StepResult.continue, ⟨⟨[1105, 0, 4, 99, 99], 3, 0⟩, [], []⟩))
    ∧ (Day21.step chanInput chanOutput ⟨⟨[1106, 0, 4, 99, 99], 0, 0⟩, [], []⟩
        = Except.ok (Day21.StepResult.continue, ⟨⟨[1106, 0, 4, 99, 99], 4, 0⟩, [], []⟩))
    ∧ (Day21.step chanInput chanOutput ⟨⟨[1106, 1, 4, 99], 0, 0⟩, [], []⟩
        = Except.ok (Day21.StepResult.continue, ⟨⟨[1106, 1, 4, 99], 3, 0⟩, [], []⟩))
    ∧ (Day21.step chanInput chanOutput ⟨⟨[109, 19, 99], 0, 0⟩, [], []⟩
        = Except.ok (Day21.StepResult.continue, ⟨⟨[109, 19, 99], 2, 19⟩, [], []⟩))
    ∧ (Day21.step chanInput chanOutput ⟨⟨[99], 0, 0⟩, [], []⟩
        = Except.ok (Day21.StepResult.complete, ⟨⟨[99], 1, 0⟩, [], []⟩)) := by
  refine ⟨claim_C1_instruction_semantics.1 ⟨[], 0, 0⟩ 7,
    claim_C1_instruction_semantics.2.1 ⟨[5, 9], 0, 0⟩ 1 9 (by decide) (by decide) rfl,
    claim_C1_instruction_semantics.2.2.1 ⟨[5, 9, 13], 0, 2⟩ 0 13 (by decide)
      (by decide) rfl,
    claim_C1_instruction_semantics.2.2.2.1 (Channel Int) (Channel Int) chanInput
      chanOutput ⟨⟨[1101, 2, 3, 5, 99, 0], 0, 0⟩, [], []⟩ ⟨Day21.Mode.Immediate, 2⟩
      ⟨Day21.Mode.Immediate, 3⟩ ⟨Day21.Mode.Position, 5⟩ 2 3 [1101, 2, 3, 5, 99, 5]
      rfl rfl rfl (by decide) (by decide) rfl,
    claim_C1_instruction_semantics.2.2.2.2.1 (Channel Int) (Channel Int) chanInput
      chanOutput ⟨⟨[1102, 6, 7, 5, 99, 0], 0, 0⟩, [], []⟩ ⟨Day21.Mode.Immediate, 6⟩
      ⟨Day21.Mode.Immediate, 7⟩ ⟨Day21.Mode.Position, 5⟩ 6 7 [1102, 6, 7, 5, 99, 42]
      rfl rfl rfl (by decide) (by decide) rfl,
    claim_C1_instruction_semantics.2.2.2.2.2.1 (Channel Int) (Channel Int) chanInput
      chanOutput ⟨⟨[1107, 2, 3, 5, 99, 0], 0, 0⟩, [], []⟩ ⟨Day21.Mode.Immediate, 2⟩
      ⟨Day21.Mode.Immediate, 3⟩ ⟨Day21.Mode.Position, 5⟩ 2 3 [1107, 2, 3, 5, 99, 1]
      rfl rfl rfl rfl,
    claim_C1_instruction_semantics.2.2.2.2.2.2.1 (Channel Int) (Channel Int) chanInput
      chanOutput ⟨⟨[1108, 3, 3, 5, 99, 0], 0, 0⟩, [], []⟩ ⟨Day21.Mode.Immediate, 3⟩
      ⟨Day21.Mode.Immediate, 3⟩ ⟨Day21.Mode.Position, 5⟩ 3 3 [1108, 3, 3, 5, 99, 1]
      rfl rfl rfl rfl,
    claim_C1_instruction_semantics.2.2.2.2.2.2.2.1 (Channel Int) (Channel Int)
      chanInput chanOutput ⟨⟨[104, 7, 99], 0, 0⟩, [], []⟩ ⟨Day21.Mode.Immediate, 7⟩ 7
      rfl rfl,
    claim_C1_instruction_semantics.2.2.2.2.2.2.2.2.1 (Channel Int) (Channel Int)
      chanInput chanOutput ⟨⟨[1105, 1, 4, 99, 99], 0, 0⟩, [], []⟩
      ⟨Day21.Mode.Immediate, 1⟩ ⟨Day21.Mode.Immediate, 4⟩ 1 4 rfl rfl (by decide) rfl
      (by decide) (by decide),
    claim_C1_instruction_semantics.2.2.2.2.2.2.2.2.2.1 (Channel Int) (Channel Int)
      chanInput chanOutput ⟨⟨[1105, 0, 4, 99, 99], 0, 0⟩, [], []⟩
      ⟨Day21.Mode.Immediate, 0⟩ ⟨Day21.Mode.Immediate, 4⟩ rfl rfl,
    claim_C1_instruction_semantics.2.2.2.2.2.2.2.2.2.2.1 (Channel Int) (Channel Int)
      chanInput chanOutput ⟨⟨[1106, 0, 4, 99, 99], 0, 0⟩, [], []⟩
      ⟨Day21.Mode.Immediate, 0⟩ ⟨Day21.Mode.Immediate, 4⟩ 4 rfl rfl rfl (by decide)
      (by decide),
    claim_C1_instruction_semantics.2.2.2.2.2.2.2.2.2.2.2.1 (Channel Int) (Channel Int)
      chanInput chanOutput ⟨⟨[1106, 1, 4, 99], 0, 0⟩, [], []⟩
      ⟨Day21.Mode.Immediate, 1⟩ ⟨Day21.Mode.Immediate, 4⟩ 1 rfl rfl (by decide),
    claim_C1_instruction_semantics.2.2.2.2.2.2.2.2.2.2.2.2.1 (Channel Int)
      (Channel Int) chanInput chanOutput ⟨⟨[109, 19, 99], 0, 0⟩, [], []⟩
      ⟨Day21.Mode.Immediate, 19⟩ 19 rfl rfl (by decide) (by decide),
    claim_C1_instruction_semantics.2.2.2.2.2.2.2.2.2.2.2.2.2 (Channel Int)
      (Channel Int) chanInput chanOutput ⟨⟨[99], 0, 0⟩, [], []⟩ rfl⟩

/-! ## Claim C2: blocking on Input rewinds and is resumable -/

theorem day21_step_input_blocked (σ τ : Type) (I : InputImpl σ) (O : OutputImpl τ)
    (s : Sys Day21.Process σ τ) (o : Day21.Parameter) (inp1 : σ)
    (hp : Day21.Instruction.parse (s.proc.memory.drop s.proc.instruction_pointer)
        = Except.ok (Day21.Instruction.Input o))
    (hg : I.get s.inp = (none, inp1)) :
    Day21.step I O s = Except.ok (Day21.StepResult.blocked, { s with inp := inp1 }) := by
  obtain ⟨⟨mem, ip, rb⟩, inp, outp⟩ := s
  simp only at hp hg ⊢
  simp only [Day21.step, hp, except_bind_ok, Day21.Instruction.size, hg,
    Nat.add_sub_cancel]

theorem day21_step_input_supplied (σ τ : Type) (I : InputImpl σ) (O : OutputImpl τ)
    (s : Sys Day21.Process σ τ) (o : Day21.Parameter) (v : Int) (inp1 : σ)
    (mem' : List Int)
    (hp : Day21.Instruction.parse (s.proc.memory.drop s.proc.instruction_pointer)
        = Except.ok (Day21.Instruction.Input o))
    (hg : I.get s.inp = (some v, inp1))
    (hw : writeMem s.proc.memory (s.proc.resolve_address o) v = Except.ok mem') :
    Day21.step I O s = Except.ok (Day21.StepResult.continue,
      { proc := { s.proc with
                  memory := mem'
                  instruction_pointer := s.proc.instruction_pointer + 2 }
        inp := inp1
        outp := s.outp }) := by
  obtain ⟨⟨mem, ip, rb⟩, inp, outp⟩ := s
  simp only at hp hg hw ⊢
  have hw2 : writeMem mem (Day21.Process.resolve_address ⟨mem, ip + 2, rb⟩ o) v
      = Except.ok mem' := by
    rw [day21_resolve_address_ip mem (ip + 2) ip rb o]
    exact hw
  simp only [Day21.step, hp, except_bind_ok, Day21.Instruction.size, hg, hw2]


theorem day7_step_input_blocked (σ τ : Type) (I : InputImpl σ) (O : OutputImpl τ)
    (s : Sys Day7.Process σ τ) (o : Nat) (inp1 : σ)
    (hp : Day7.Instruction.parse (s.proc.memory.drop s.proc.instruction_pointer)
        = Except.ok (Day7.Instruction.Input o))
    (hg : I.get s.inp = (none, inp1)) :
    Day7.step I O s = Except.ok (Day21.StepResult.blocked, { s with inp := inp1 }) := by
  obtain ⟨⟨mem, ip⟩, inp, outp⟩ := s
  simp only at hp hg ⊢
  simp only [Day7.step, hp, except_bind_ok, Day7.Instruction.size, hg,
    Nat.add_sub_cancel]

theorem day7_step_input_supplied (σ τ : Type) (I : InputImpl σ) (O : OutputImpl τ)
    (s : Sys Day7.Process σ τ) (o : Nat) (v : Int) (inp1 : σ) (mem' : List Int)
    (hp : Day7.Instruction.parse (s.proc.memory.drop s.proc.instruction_pointer)
        = Except.ok (Day7.Instruction.Input o))
    (hg : I.get s.inp = (some v, inp1))
    (hw : writeMem s.proc.memory o v = Except.ok mem') :
    Day7.step I O s = Except.ok (Day21.StepResult.continue,
      { proc := { s.proc with memory := mem', instruction_pointer := s.proc.instruction_pointer + 2 }
        inp := inp1
        outp := s.outp }) := by
  obtain ⟨⟨mem, ip⟩, inp, outp⟩ := s
  simp only at hp hg hw ⊢
  simp only [Day7.step, hp, except_bind_ok, Day7.Instruction.size, hg, hw]

/-- C2: in both VM variants, when an Input instruction finds no value available, `step` returns
Blocked with the process state completely unchanged (the instruction
pointer, advanced by the instruction's width 2 on decode, is rewound by
that width, and no memory write happens), so `execute` returns Blocked at
that state; calling it again with an unchanged input re-decodes and
retries the same Input instruction (again Blocked); and once a value is
supplied, execution proceeds from exactly that instruction: the value is
written and the instruction pointer moves past just this instruction. -/
theorem claim_C2_blocked_input :
    (∀ (σ τ : Type) (I : InputImpl σ) (O : OutputImpl τ)
      (s : Sys Day21.Process σ τ) (o : Day21.Parameter) (inp1 : σ),
      Day21.Instruction.parse (s.proc.memory.drop s.proc.instruction_pointer)
          = Except.ok (Day21.Instruction.Input o) →
      I.get s.inp = (none, inp1) →
      (Day21.step I O s
          = Except.ok (Day21.StepResult.blocked, { s with inp := inp1 }))
      ∧ (∀ fuel : Nat, Day21.execute I O (fuel + 1) s
          = Except.ok (some (VMState.Blocked, { s with inp := inp1 })))
      ∧ (∀ inp2 : σ, I.get inp1 = (none, inp2) →
          Day21.step I O { s with inp := inp1 }
            = Except.ok (Day21.StepResult.blocked, { s with inp := inp2 }))
      ∧ (∀ (v : Int) (inp2 inp3 : σ) (mem' : List Int),
          I.get inp2 = (some v, inp3) →
          writeMem s.proc.memory (s.proc.resolve_address o) v = Except.ok mem' →
          Day21.step I O { s with inp := inp2 }
            = Except.ok (Day21.StepResult.continue,
                { proc := { s.proc with
                            memory := mem'
                            instruction_pointer := s.proc.instruction_pointer + 2 }
                  inp := inp3
                  outp := s.outp })))
    ∧ (∀ (σ τ : Type) (I : InputImpl σ) (O : OutputImpl τ)
      (s : Sys Day7.Process σ τ) (o : Nat) (inp1 : σ),
      Day7.Instruction.parse (s.proc.memory.drop s.proc.instruction_pointer)
          = Except.ok (Day7.Instruction.Input o) →
      I.get s.inp = (none, inp1) →
      (Day7.step I O s
          = Except.ok (Day21.StepResult.blocked, { s with inp := inp1 }))
      ∧ (∀ fuel : Nat, Day7.execute I O (fuel + 1) s
          = Except.ok (some (VMState.Blocked, { s with inp := inp1 })))
      ∧ (∀ inp2 : σ, I.get inp1 = (none, inp2) →
          Day7.step I O { s with inp := inp1 }
            = Except.ok (Day21.StepResult.blocked, { s with inp := inp2 }))
      ∧ (∀ (v : Int) (inp2 inp3 : σ) (mem' : List Int),
          I.get inp2 = (some v, inp3) →
          writeMem s.proc.memory o v = Except.ok mem' →
          Day7.step I O { s with inp := inp2 }
            = Except.ok (Day21.StepResult.continue,
                { proc := { s.proc with memory := mem', instruction_pointer := s.proc.instruction_pointer + 2 }
                  inp := inp3
                  outp := s.outp }))) := by
  constructor
  · intro σ τ I O s o inp1 hp hg
    refine ⟨day21_step_input_blocked σ τ I O s o inp1 hp hg, ?_, ?_, ?_⟩
    · intro fuel
      have hs := day21_step_input_blocked σ τ I O s o inp1 hp hg
      simp only [Day21.execute, hs, except_bind_ok]
    · intro inp2 hg2
      exact day21_step_input_blocked σ τ I O { s with inp := inp1 } o inp2 hp hg2
    · intro v inp2 inp3 mem' hg3 hw
      exact day21_step_input_supplied σ τ I O { s with inp := inp2 } o v inp3 mem'
        hp hg3 hw
  · intro σ τ I O s o inp1 hp hg
    refine ⟨day7_step_input_blocked σ τ I O s o inp1 hp hg, ?_, ?_, ?_⟩
    · intro fuel
      have hs := day7_step_input_blocked σ τ I O s o inp1 hp hg
      simp only [Day7.execute, hs, except_bind_ok]
    · intro inp2 hg2
      exact day7_step_input_blocked σ τ I O { s with inp := inp1 } o inp2 hp hg2
    · intro v inp2 inp3 mem' hg3 hw
      exact day7_step_input_supplied σ τ I O { s with inp := inp2 } o v inp3 mem'
        hp hg3 hw

/-- Witness for C2: the program `[3, 0, 99]` with an empty input channel
blocks without moving, and proceeds once `7` is queued. -/
theorem claim_C2_witness :
    (Day21.step chanInput chanOutput ⟨⟨[3, 0, 99], 0, 0⟩, [], []⟩
        = Except.ok (Day21.StepResult.blocked, ⟨⟨[3, 0, 99], 0, 0⟩, [], []⟩))
    ∧ (Day21.execute chanInput chanOutput 1 ⟨⟨[3, 0, 99], 0, 0⟩, [], []⟩
        = Except.ok (some (VMState.Blocked, ⟨⟨[3, 0, 99], 0, 0⟩, [], []⟩)))
    ∧ (Day21.step chanInput chanOutput ⟨⟨[3, 0, 99], 0, 0⟩, [7], []⟩
        = Except.ok (Day21.StepResult.continue, ⟨⟨[7, 0, 99], 2, 0⟩, [], []⟩))
    ∧ (Day7.step chanInput chanOutput ⟨⟨[3, 0, 99], 0⟩, [], []⟩
        = Except.ok (Day21.StepResult.blocked, ⟨⟨[3, 0, 99], 0⟩, [], []⟩))
    ∧ (Day7.execute chanInput chanOutput 1 ⟨⟨[3, 0, 99], 0⟩, [], []⟩
        = Except.ok (some (VMState.Blocked, ⟨⟨[3, 0, 99], 0⟩, [], []⟩)))
    ∧ (Day7.step chanInput chanOutput ⟨⟨[3, 0, 99], 0⟩, [7], []⟩
        = Except.ok (Day21.StepResult.continue, ⟨⟨[7, 0, 99], 2⟩, [], []⟩)) := by
  have h := claim_C2_blocked_input.1 (Channel Int) (Channel Int) chanInput
    chanOutput ⟨⟨[3, 0, 99], 0, 0⟩, [], []⟩ ⟨Day21.Mode.Position, 0⟩ [] rfl rfl
  have h7 := claim_C2_blocked_input.2 (Channel Int) (Channel Int) chanInput
    chanOutput ⟨⟨[3, 0, 99], 0⟩, [], []⟩ 0 [] rfl rfl
  exact ⟨h.1, h.2.1 0, h.2.2.2 7 [7] [] [7, 0, 99] rfl rfl,
    h7.1, h7.2.1 0, h7.2.2.2 7 [7] [] [7, 0, 99] rfl rfl⟩

/-! ## Claim C3: instruction decoding -/

theorem int_tmod_natCast (a b : Nat) :
    Int.tmod (a : Int) (b : Int) = ((a % b : Nat) : Int) := by
  simp [Int.tmod]

theorem int_tdiv_natCast (a b : Nat) :
    Int.tdiv (a : Int) (b : Int) = ((a / b : Nat) : Int) := by
  simp [Int.tdiv]

theorem day21_mode_digit (n i : Nat) :
    Day21.Modes.mode (n : Int) i
      = (if n / 10 ^ i % 10 = 0 then Except.ok Day21.Mode.Position
         else if n / 10 ^ i % 10 = 1 then Except.ok Day21.Mode.Immediate
         else if n / 10 ^ i % 10 = 2 then Except.ok Day21.Mode.Relative
         else Except.error "Unknown mode") := by
  simp only [Day21.Modes.mode]
  have h10a : ((10 : Int) ^ (i + 1)) = ((10 ^ (i + 1) : Nat) : Int) := by push_cast; ring
  have h10b : ((10 : Int) ^ i) = ((10 ^ i : Nat) : Int) := by push_cast; ring
  rw [h10a, h10b, int_tmod_natCast, int_tdiv_natCast]
  have hdig : n % 10 ^ (i + 1) / 10 ^ i = n / 10 ^ i % 10 := by
    rw [pow_succ]
    exact Nat.mod_mul_right_div_self n (10 ^ i) 10
  rw [hdig]
  by_cases h0 : n / 10 ^ i % 10 = 0
  · simp [h0]
  · by_cases h1 : n / 10 ^ i % 10 = 1
    · simp [h0, h1]
    · by_cases h2 : n / 10 ^ i % 10 = 2
      · simp [h0, h1, h2]
      · have c0 : ¬((n / 10 ^ i % 10 : Nat) : Int) = 0 := by exact_mod_cast h0
        have c1 : ¬((n / 10 ^ i % 10 : Nat) : Int) = 1 := by exact_mod_cast h1
        have c2 : ¬((n / 10 ^ i % 10 : Nat) : Int) = 2 := by exact_mod_cast h2
        rw [if_neg c0, if_neg c1, if_neg c2, if_neg h0, if_neg h1, if_neg h2]

theorem day21_mode_unknown_digit (n i : Nat) (h : 3 ≤ n / 10 ^ i % 10) :
    Day21.Modes.mode (n : Int) i = Except.error "Unknown mode" := by
  have h0 : n / 10 ^ i % 10 ≠ 0 := by omega
  have h1 : n / 10 ^ i % 10 ≠ 1 := by omega
  have h2 : n / 10 ^ i % 10 ≠ 2 := by omega
  rw [day21_mode_digit]
  simp [h0, h1, h2]

theorem day7_mode_value (n i : Nat) :
    Day7.Modes.mode (n : Int) i
      = (if n / 10 ^ i % 10 ^ (i + 1) = 0 then Except.ok Day7.Mode.Position
         else if n / 10 ^ i % 10 ^ (i + 1) = 1 then Except.ok Day7.Mode.Immediate
         else Except.error "Unknown mode") := by
  simp only [Day7.Modes.mode]
  have h10a : ((10 : Int) ^ (i + 1)) = ((10 ^ (i + 1) : Nat) : Int) := by push_cast; ring
  have h10b : ((10 : Int) ^ i) = ((10 ^ i : Nat) : Int) := by push_cast; ring
  rw [h10a, h10b, int_tdiv_natCast, int_tmod_natCast]
  by_cases h0 : n / 10 ^ i % 10 ^ (i + 1) = 0
  · simp [h0]
  · by_cases h1 : n / 10 ^ i % 10 ^ (i + 1) = 1
    · simp [h0, h1]
    · have c0 : ¬((n / 10 ^ i % 10 ^ (i + 1) : Nat) : Int) = 0 := by exact_mod_cast h0
      have c1 : ¬((n / 10 ^ i % 10 ^ (i + 1) : Nat) : Int) = 1 := by exact_mod_cast h1
      rw [if_neg c0, if_neg c1, if_neg h0, if_neg h1]

theorem day7_mode_index_zero (n : Nat) :
    Day7.Modes.mode (n : Int) 0
      = (if n % 10 = 0 then Except.ok Day7.Mode.Position
         else if n % 10 = 1 then Except.ok Day7.Mode.Immediate
         else Except.error "Unknown mode") := by
  have h := day7_mode_value n 0
  simpa using h

theorem day7_mode_low_prefix (n i : Nat) (h : n < 10 ^ (i + 1)) :
    Day7.Modes.mode (n : Int) i
      = (if n / 10 ^ i % 10 = 0 then Except.ok Day7.Mode.Position
         else if n / 10 ^ i % 10 = 1 then Except.ok Day7.Mode.Immediate
         else Except.error "Unknown mode") := by
  have hpos : 0 < 10 ^ i := Nat.pos_pow_of_pos i (by norm_num)
  have hlt : n / 10 ^ i < 10 := by
    apply Nat.div_lt_of_lt_mul
    rw [← pow_succ]
    exact h
  have hle : (10 : Nat) ≤ 10 ^ (i + 1) := by
    calc (10 : Nat) = 10 ^ 1 := (pow_one 10).symm
    _ ≤ 10 ^ (i + 1) := Nat.pow_le_pow_right (by norm_num) (by omega)
  rw [day7_mode_value, Nat.mod_eq_of_lt (lt_of_lt_of_le hlt hle),
    Nat.mod_eq_of_lt hlt]

theorem day7_mode_two_error (n i : Nat) (h : n / 10 ^ i % 10 ^ (i + 1) = 2) :
    Day7.Modes.mode (n : Int) i = Except.error "Unknown mode" := by
  rw [day7_mode_value, h]
  norm_num

theorem day21_parse_unknown_opcode (w : Int) (rest : List Int)
    (h1 : Int.tmod w 100 ≠ 1) (h2 : Int.tmod w 100 ≠ 2)
    (h3 : Int.tmod w 100 ≠ 3) (h4 : Int.tmod w 100 ≠ 4)
    (h5 : Int.tmod w 100 ≠ 5) (h6 : Int.tmod w 100 ≠ 6)
    (h7 : Int.tmod w 100 ≠ 7) (h8 : Int.tmod w 100 ≠ 8)
    (h9 : Int.tmod w 100 ≠ 9) (h99 : Int.tmod w 100 ≠ 99) :
    Day21.Instruction.parse (w :: rest) = Except.error "Unknown opcode" := by
  simp only [Day21.Instruction.parse, List.getElem?_cons_zero]
  simp [h1, h2, h3, h4, h5, h6, h7, h8, h9, h99]

theorem day7_parse_unknown_opcode (w : Int) (rest : List Int)
    (h1 : Int.tmod w 100 ≠ 1) (h2 : Int.tmod w 100 ≠ 2)
    (h3 : Int.tmod w 100 ≠ 3) (h4 : Int.tmod w 100 ≠ 4)
    (h5 : Int.tmod w 100 ≠ 5) (h6 : Int.tmod w 100 ≠ 6)
    (h7 : Int.tmod w 100 ≠ 7) (h8 : Int.tmod w 100 ≠ 8)
    (h99 : Int.tmod w 100 ≠ 99) :
    Day7.Instruction.parse (w :: rest) = Except.error "Unknown opcode" := by
  simp only [Day7.Instruction.parse, List.getElem?_cons_zero]
  simp [h1, h2, h3, h4, h5, h6, h7, h8, h99]

theorem day21_parse_add_decode (w : Int) (rest : List Int) (m0 m1 m2 : Day21.Mode)
    (v0 v1 v2 : Int)
    (hop : Int.tmod w 100 = 1)
    (hm0 : Day21.Modes.mode (Int.tdiv w 100) 0 = Except.ok m0)
    (hv0 : rest[0]? = some v0)
    (hm1 : Day21.Modes.mode (Int.tdiv w 100) 1 = Except.ok m1)
    (hv1 : rest[1]? = some v1)
    (hm2 : Day21.Modes.mode (Int.tdiv w 100) 2 = Except.ok m2)
    (hv2 : rest[2]? = some v2) :
    Day21.Instruction.parse (w :: rest)
      = Except.ok (Day21.Instruction.Add ⟨m0, v0⟩ ⟨m1, v1⟩ ⟨m2, v2⟩) := by
  simp only [Day21.Instruction.parse, List.getElem?_cons_zero, List.drop_succ_cons,
    List.drop_zero, Day21.Parameters.get, hop, hm0, hm1, hm2, except_bind_ok,
    hv0, hv1, hv2]
  simp

/-- C3 counterexample: in the earlier VM the mode of parameter 1 is NOT in
general the 1st least-significant digit of `w div 100`.  For `w = 11101`
(mode digits 1, 1, 1, all in the valid set), digit 1 is `1` (Immediate),
yet the decoder reports a fatal "Unknown mode" error, because it computes
`(111 / 10) % 100 = 11`. -/
theorem claim_C3_counterexample :
    (111 / 10 ^ 1 % 10 = 1)
    ∧ Day7.Modes.mode (111 : Int) 1 = Except.error "Unknown mode"
    ∧ Day7.Instruction.parse [11101, 2, 3, 5] = Except.error "Unknown mode" :=
  ⟨rfl, rfl, rfl⟩

/-- C3 (amended): the later VM extracts the opcode as `w mod 100` and the
mode of parameter `i` as the `i`-th least-significant decimal digit of
`w div 100` (0 = Position, 1 = Immediate, 2 = Relative, any other digit a
fatal error), and any unknown opcode is a fatal error, in both variants.
The earlier VM, however, computes the mode value of parameter `i` as
`(w div 100 div 10^i) mod 10^(i+1)`; this agrees with the `i`-th digit for
parameter 0 and whenever the mode prefix is below `10^(i+1)`, and any
resulting value other than 0 or 1 — in particular mode 2 — is a fatal
error. -/
theorem claim_C3_decoder :
    (∀ n i : Nat, Day21.Modes.mode (n : Int) i
        = (if n / 10 ^ i % 10 = 0 then Except.ok Day21.Mode.Position
           else if n / 10 ^ i % 10 = 1 then Except.ok Day21.Mode.Immediate
           else if n / 10 ^ i % 10 = 2 then Except.ok Day21.Mode.Relative
           else Except.error "Unknown mode"))
    ∧ (∀ n i : Nat, 3 ≤ n / 10 ^ i % 10 →
        Day21.Modes.mode (n : Int) i = Except.error "Unknown mode")
    ∧ (∀ (w : Int) (rest : List Int),
        Int.tmod w 100 ≠ 1 → Int.tmod w 100 ≠ 2 → Int.tmod w 100 ≠ 3 →
        Int.tmod w 100 ≠ 4 → Int.tmod w 100 ≠ 5 → Int.tmod w 100 ≠ 6 →
        Int.tmod w 100 ≠ 7 → Int.tmod w 100 ≠ 8 → Int.tmod w 100 ≠ 9 →
        Int.tmod w 100 ≠ 99 →
        Day21.Instruction.parse (w :: rest) = Except.error "Unknown opcode")
    ∧ (∀ (w : Int) (rest : List Int) (m0 m1 m2 : Day21.Mode) (v0 v1 v2 : Int),
        Int.tmod w 100 = 1 →
        Day21.Modes.mode (Int.tdiv w 100) 0 = Except.ok m0 →
        rest[0]? = some v0 →
        Day21.Modes.mode (Int.tdiv w 100) 1 = Except.ok m1 →
        rest[1]? = some v1 →
        Day21.Modes.mode (Int.tdiv w 100) 2 = Except.ok m2 →
        rest[2]? = some v2 →
        Day21.Instruction.parse (w :: rest)
          = Except.ok (Day21.Instruction.Add ⟨m0, v0⟩ ⟨m1, v1⟩ ⟨m2, v2⟩))
    ∧ (∀ n i : Nat, Day7.Modes.mode (n : Int) i
        = (if n / 10 ^ i % 10 ^ (i + 1) = 0 then Except.ok Day7.Mode.Position
           else if n / 10 ^ i % 10 ^ (i + 1) = 1 then Except.ok Day7.Mode.Immediate
           else Except.error "Unknown mode"))
    ∧ (∀ n : Nat, Day7.Modes.mode (n : Int) 0
        = (if n % 10 = 0 then Except.ok Day7.Mode.Position
           else if n % 10 = 1 then Except.ok Day7.Mode.Immediate
           else Except.error "Unknown mode"))
    ∧ (∀ n i : Nat, n < 10 ^ (i + 1) →
        Day7.Modes.mode (n : Int) i
          = (if n / 10 ^ i % 10 = 0 then Except.ok Day7.Mode.Position
             else if n / 10 ^ i % 10 = 1 then Except.ok Day7.Mode.Immediate
             else Except.error "Unknown mode"))
    ∧ (∀ n i : Nat, n / 10 ^ i % 10 ^ (i + 1) = 2 →
        Day7.Modes.mode (n : Int) i = Except.error "Unknown mode")
    ∧ (∀ (w : Int) (rest : List Int),
        Int.tmod w 100 ≠ 1 → Int.tmod w 100 ≠ 2 → Int.tmod w 100 ≠ 3 →
        Int.tmod w 100 ≠ 4 → Int.tmod w 100 ≠ 5 → Int.tmod w 100 ≠ 6 →
        Int.tmod w 100 ≠ 7 → Int.tmod w 100 ≠ 8 → Int.tmod w 100 ≠ 99 →
        Day7.Instruction.parse (w :: rest) = Except.error "Unknown opcode") :=
  ⟨day21_mode_digit, day21_mode_unknown_digit, day21_parse_unknown_opcode,
   day21_parse_add_decode, day7_mode_value, day7_mode_index_zero,
   day7_mode_low_prefix, day7_mode_two_error, day7_parse_unknown_opcode⟩

/-- Witness for C3 at concrete words. -/
theorem claim_C3_witness :
    (Day21.Modes.mode (3 : Int) 0 = Except.error "Unknown mode")
    ∧ (Day21.Instruction.parse [50] = Except.error "Unknown opcode")
    ∧ (Day21.Instruction.parse [1101, 2, 3, 5]
        = Except.ok (Day21.Instruction.Add ⟨Day21.Mode.Immediate, 2⟩
            ⟨Day21.Mode.Immediate, 3⟩ ⟨Day21.Mode.Position, 5⟩))
    ∧ (Day7.Modes.mode (11 : Int) 1 = Except.ok Day7.Mode.Immediate)
    ∧ (Day7.Modes.mode (2 : Int) 0 = Except.error "Unknown mode")
    ∧ (Day7.Instruction.parse [50] = Except.error "Unknown opcode") := by
  refine ⟨(claim_C3_decoder.2.1 3 0 (by decide)),
    (claim_C3_decoder.2.2.1 50 [] (by decide) (by decide) (by decide) (by decide)
      (by decide) (by decide) (by decide) (by decide) (by decide) (by decide)),
    (claim_C3_decoder.2.2.2.1 1101 [2, 3, 5] Day21.Mode.Immediate
      Day21.Mode.Immediate Day21.Mode.Position 2 3 5 (by decide) rfl rfl rfl rfl
      rfl rfl),
    ((claim_C3_decoder.2.2.2.2.2.2.1 11 1 (by decide)).trans rfl),
    (claim_C3_decoder.2.2.2.2.2.2.2.1 2 0 (by decide)),
    (claim_C3_decoder.2.2.2.2.2.2.2.2 50 [] (by decide) (by decide) (by decide)
      (by decide) (by decide) (by decide) (by decide) (by decide) (by decide))⟩

/-! ## Claim C4: write-target resolution -/

/-- C4 counterexample: an Immediate-mode destination is NOT a fatal error.
The word `11101` decodes as Add with destination parameter `⟨Immediate, 5⟩`,
and the machine executes it exactly like a Position destination, writing
`2 + 3` to address 5 and continuing. -/
theorem claim_C4_counterexample :
    (Day21.step chanInput chanOutput ⟨⟨[11101, 2, 3, 5, 99, 0], 0, 0⟩, [], []⟩
        = Except.ok (Day21.StepResult.continue,
            ⟨⟨[11101, 2, 3, 5, 99, 5], 4, 0⟩, [], []⟩))
    ∧ (Day21.Instruction.parse [11101, 2, 3, 5, 99, 0]
        = Except.ok (Day21.Instruction.Add ⟨Day21.Mode.Immediate, 2⟩
            ⟨Day21.Mode.Immediate, 3⟩ ⟨Day21.Mode.Immediate, 5⟩))
    ∧ (Day21.Process.resolve_address ⟨[0], 0, 0⟩ ⟨Day21.Mode.Immediate, 5⟩ = 5) :=
  ⟨rfl, rfl, rfl⟩

/-- C4 (amended): write-target resolution uses the same decoded mode digits
as read resolution; a Relative destination resolves to the address
`relative_base + value` without performing a memory read (it is independent
of the memory contents); but an Immediate destination is not rejected — the
later VM treats it exactly like Position (the parameter value as an
address), and the earlier VM ignores the destination's mode entirely,
taking the raw value as the address. -/
theorem claim_C4_write_target_resolution :
    (∀ (p : Day21.Process) (v : Int),
        p.resolve_address ⟨Day21.Mode.Position, v⟩ = toUsize v)
    ∧ (∀ (p : Day21.Process) (v : Int),
        p.resolve_address ⟨Day21.Mode.Immediate, v⟩ = toUsize v)
    ∧ (∀ (p : Day21.Process) (v : Int),
        p.resolve_address ⟨Day21.Mode.Relative, v⟩ = relAddr p.relative_base v)
    ∧ (∀ (mem1 mem2 : List Int) (ip1 ip2 rb : Nat) (param : Day21.Parameter),
        Day21.Process.resolve_address ⟨mem1, ip1, rb⟩ param
          = Day21.Process.resolve_address ⟨mem2, ip2, rb⟩ param)
    ∧ (∀ (p : Day21.Process) (v : Int), 0 ≤ v → v < (USIZE : Int) →
        p.resolve_address ⟨Day21.Mode.Immediate, v⟩ = v.toNat)
    ∧ (∀ (p : Day21.Process) (v : Int), 0 ≤ (p.relative_base : Int) + v →
        (p.relative_base : Int) + v < (USIZE : Int) →
        p.resolve_address ⟨Day21.Mode.Relative, v⟩
          = ((p.relative_base : Int) + v).toNat)
    ∧ (∀ (data : List Int) (i : Nat) (v : Int), data[i]? = some v →
        Day7.Parameters.get_address data i = Except.ok (toUsize v)) := by
  refine ⟨fun p v => rfl, fun p v => rfl, fun p v => rfl,
    fun mem1 mem2 ip1 ip2 rb param => rfl, ?_, ?_, ?_⟩
  · intro p v h0 h1
    show toUsize v = v.toNat
    exact toUsize_of_lt h0 h1
  · intro p v h0 h1
    show relAddr p.relative_base v = ((p.relative_base : Int) + v).toNat
    exact relAddr_eq h0 h1
  · intro data i v h
    simp [Day7.Parameters.get_address, h]

/-- Witness for C4 at concrete inputs. -/
theorem claim_C4_witness :
    (Day21.Process.resolve_address ⟨[], 0, 0⟩ ⟨Day21.Mode.Immediate, 9⟩ = 9)
    ∧ (Day21.Process.resolve_address ⟨[], 0, 4⟩ ⟨Day21.Mode.Relative, 3⟩ = 7)
    ∧ (Day7.Parameters.get_address [8, 6] 1 = Except.ok 6) := by
  refine ⟨claim_C4_write_target_resolution.2.2.2.2.1 ⟨[], 0, 0⟩ 9 (by decide)
      (by decide),
    (claim_C4_write_target_resolution.2.2.2.2.2.1 ⟨[], 0, 4⟩ 3 (by decide)
      (by decide)).trans rfl,
    (claim_C4_write_target_resolution.2.2.2.2.2.2 [8, 6] 1 6 rfl).trans rfl⟩

/-! ## Claim C6: the NIC input contract -/

theorem day21_step_blocked_inversion (σ τ : Type) (I : InputImpl σ)
    (O : OutputImpl τ) (s s1 : Sys Day21.Process σ τ)
    (h : Day21.step I O s = Except.ok (Day21.StepResult.blocked, s1)) :
    ∃ (o : Day21.Parameter) (inp1 : σ),
      Day21.Instruction.parse (s.proc.memory.drop s.proc.instruction_pointer)
          = Except.ok (Day21.Instruction.Input o)
      ∧ I.get s.inp = (none, inp1) := by
  unfold Day21.step at h
  simp only [bind, Except.bind] at h
  split at h
  · exact absurd h (by simp)
  · rename_i instr heq
    split at h
    · (repeat' split at h) <;> exact absurd h (by simp)
    · (repeat' split at h) <;> exact absurd h (by simp)
    · rename_i o
      split at h
      · (repeat' split at h) <;> exact absurd h (by simp)
      · rename_i inp1 hget
        exact ⟨o, inp1, heq, hget⟩
    · (repeat' split at h) <;> exact absurd h (by simp)
    · (repeat' split at h) <;> exact absurd h (by simp)
    · (repeat' split at h) <;> exact absurd h (by simp)
    · (repeat' split at h) <;> exact absurd h (by simp)
    · (repeat' split at h) <;> exact absurd h (by simp)
    · (repeat' split at h) <;> exact absurd h (by simp)
    · exact absurd h (by simp)

/-- C6: the first `get` on a NIC yields the NIC's own address and flips
`got_index`, which every operation preserves afterwards, so the address is
delivered exactly once; after that, `get` pops the oldest queued value when
the queue is non-empty and yields the sentinel `-1` when it is empty; as an
input endpoint the NIC never reports absence of a value, hence a process
reading from a NIC can never step to Blocked. -/
theorem claim_C6_nic_input :
    (∀ n : Day23.Nic, n.got_index = false →
        Day23.Nic.get n = (n.index, { n with got_index := true }))
    ∧ (∀ (n : Day23.Nic) (v : Int) (rest : List Int), n.got_index = true →
        n.input_buffer = v :: rest →
        Day23.Nic.get n = (v, { n with input_buffer := rest, got_input := true }))
    ∧ (∀ n : Day23.Nic, n.got_index = true → n.input_buffer = [] →
        Day23.Nic.get n = (-1, { n with got_input := false }))
    ∧ (∀ n : Day23.Nic, (Day23.Nic.get n).2.got_index = true ∨
        ((Day23.Nic.get n).2.got_index = n.got_index))
    ∧ (∀ n : Day23.Nic, n.got_index = true → (Day23.Nic.get n).2.got_index = true)
    ∧ (∀ (n : Day23.Nic) (x y : Int),
        (Day23.Nic.receive n x y).got_index = n.got_index)
    ∧ (∀ n : Day23.Nic, Day23.nicInput.get n
        = (some (Day23.Nic.get n).1, (Day23.Nic.get n).2))
    ∧ (∀ (τ : Type) (O : OutputImpl τ) (s s1 : Sys Day21.Process Day23.Nic τ),
        Day21.step Day23.nicInput O s
          ≠ Except.ok (Day21.StepResult.blocked, s1)) := by
  refine ⟨?_, ?_, ?_, ?_, ?_, fun n x y => rfl, fun n => rfl, ?_⟩
  · intro n h
    simp [Day23.Nic.get, h]
  · intro n v rest h hbuf
    simp [Day23.Nic.get, h, hbuf]
  · intro n h hbuf
    simp [Day23.Nic.get, h, hbuf]
  · intro n
    cases hgi : n.got_index <;> cases hib : n.input_buffer <;>
      simp [Day23.Nic.get, hgi, hib]
  · intro n h
    cases hib : n.input_buffer <;> simp [Day23.Nic.get, h, hib]
  · intro τ O s s1 h
    obtain ⟨o, inp1, hp, hget⟩ :=
      day21_step_blocked_inversion Day23.Nic τ Day23.nicInput O s s1 h
    have : (Day23.nicInput.get s.inp).1 = none := by rw [hget]
    simp [Day23.nicInput] at this

/-- Witness for C6 at concrete NICs. -/
theorem claim_C6_witness :
    (Day23.Nic.get ⟨5, false, true, [], []⟩ = (5, ⟨5, true, true, [], []⟩))
    ∧ (Day23.Nic.get ⟨5, true, false, [8, 9], []⟩ = (8, ⟨5, true, true, [9], []⟩))
    ∧ (Day23.Nic.get ⟨5, true, true, [], []⟩ = (-1, ⟨5, true, false, [], []⟩))
    ∧ ((Day23.Nic.get ⟨5, true, true, [], []⟩).2.got_index = true)
    ∧ (Day21.step Day23.nicInput chanOutput
        ⟨⟨[3, 0, 99], 0, 0⟩, ⟨5, true, true, [], []⟩, []⟩
          ≠ Except.ok (Day21.StepResult.blocked,
              ⟨⟨[3, 0, 99], 0, 0⟩, ⟨5, true, false, [], []⟩, []⟩)) := by
  refine ⟨claim_C6_nic_input.1 ⟨5, false, true, [], []⟩ rfl,
    claim_C6_nic_input.2.1 ⟨5, true, false, [8, 9], []⟩ 8 [9] rfl rfl,
    claim_C6_nic_input.2.2.1 ⟨5, true, true, [], []⟩ rfl rfl,
    claim_C6_nic_input.2.2.2.2.1 ⟨5, true, true, [], []⟩ rfl,
    claim_C6_nic_input.2.2.2.2.2.2.2 (Channel Int) chanOutput
      ⟨⟨[3, 0, 99], 0, 0⟩, ⟨5, true, true, [], []⟩, []⟩
      ⟨⟨[3, 0, 99], 0, 0⟩, ⟨5, true, false, [], []⟩, []⟩⟩

/-! ## Claim C7: NIC output assembly and routing -/

theorem day23_interfaces_lt_of_get (net : Day23.Network) (i : Nat) (nic : Day23.Nic)
    (hi : net.interfaces[i]? = some nic) : i < net.interfaces.length := by
  by_contra hcon
  push_neg at hcon
  rw [List.getElem?_eq_none hcon] at hi
  cases hi

theorem day23_put_buffering (net : Day23.Network) (i : Nat) (nic : Day23.Nic)
    (v : Int)
    (hi : net.interfaces[i]? = some nic)
    (hlen : (nic.output_buffer ++ [v]).length ≠ 3) :
    Day23.Network.put net i v = Except.ok
      { net with interfaces := net.interfaces.set i ({ nic with output_buffer := nic.output_buffer ++ [v] }) } := by
  simp only [Day23.Network.put, hi]
  split
  · rename_i d x y heq
    rw [heq] at hlen
    simp at hlen
  · rfl

theorem day23_put_dispatch_nat (net : Day23.Network) (i : Nat) (nic : Day23.Nic)
    (x y : Int)
    (hi : net.interfaces[i]? = some nic)
    (hbuf : nic.output_buffer = [255, x]) :
    Day23.Network.put net i y = Except.ok
      { net with
        interfaces := net.interfaces.set i { nic with output_buffer := [] }
        nat := { net.nat with buffer := some (x, y) } } := by
  have hilen : i < net.interfaces.length := day23_interfaces_lt_of_get net i nic hi
  have h255 : toUsize (255 : Int) = 255 := rfl
  simp only [Day23.Network.put, hi, hbuf, List.cons_append, List.nil_append,
    Day23.Router.send, h255, if_true, except_bind_ok, Day23.Network.updateNic,
    Day23.NatDevice.receive]
  rw [List.getElem?_set_self (by simpa using hilen)]
  simp only [List.set_set]

theorem day23_put_dispatch_nic (net : Day23.Network) (i : Nat)
    (nic target : Day23.Nic) (d x y : Int)
    (hi : net.interfaces[i]? = some nic)
    (hbuf : nic.output_buffer = [d, x])
    (hd0 : 0 ≤ d) (hd1 : d < (USIZE : Int))
    (hne : d.toNat ≠ 255) (hij : d.toNat ≠ i)
    (ht : net.interfaces[d.toNat]? = some target) :
    Day23.Network.put net i y = Except.ok
      { net with interfaces := (net.interfaces.set d.toNat ({ target with input_buffer := target.input_buffer ++ [x, y] })).set i ({ nic with output_buffer := [] }) } := by
  have hilen : i < net.interfaces.length := day23_interfaces_lt_of_get net i nic hi
  have htu : toUsize d = d.toNat := toUsize_of_lt hd0 hd1
  obtain ⟨ifs, nat⟩ := net
  obtain ⟨nidx, ngi, ngin, nib, nob⟩ := nic
  obtain ⟨tidx, tgi, tgin, tib, tob⟩ := target
  simp only at hi ht hilen ⊢
  subst hbuf
  simp only [Day23.Network.put, hi, List.cons_append, List.nil_append,
    Day23.Router.send, htu]
  rw [if_neg hne, List.getElem?_set_ne (Ne.symm hij), ht]
  simp only [except_bind_ok, Day23.Network.updateNic, Day23.Nic.receive]
  rw [List.getElem?_set_ne hij, List.getElem?_set_self (by simpa using hilen)]
  simp only [List.set_comm _ _ _ (Ne.symm hij), List.set_set]

theorem day23_put_dispatch_self (net : Day23.Network) (i : Nat) (nic : Day23.Nic)
    (d x y : Int)
    (hi : net.interfaces[i]? = some nic)
    (hbuf : nic.output_buffer = [d, x])
    (hd0 : 0 ≤ d) (hd1 : d < (USIZE : Int))
    (hne : d.toNat ≠ 255) (hii : d.toNat = i) :
    Day23.Network.put net i y = Except.ok
      { net with interfaces := net.interfaces.set i ({ nic with input_buffer := nic.input_buffer ++ [x, y], output_buffer := [] }) } := by
  have hilen : i < net.interfaces.length := day23_interfaces_lt_of_get net i nic hi
  have htu : toUsize d = d.toNat := toUsize_of_lt hd0 hd1
  have hne2 : i ≠ 255 := by rw [← hii]; exact hne
  obtain ⟨ifs, nat⟩ := net
  obtain ⟨nidx, ngi, ngin, nib, nob⟩ := nic
  simp only at hi hilen ⊢
  subst hbuf
  simp only [Day23.Network.put, hi, List.cons_append, List.nil_append,
    Day23.Router.send, htu, hii]
  rw [if_neg hne2, List.getElem?_set_self (by simpa using hilen)]
  simp only [except_bind_ok, Day23.Network.updateNic, Day23.Nic.receive,
    List.set_set]
  rw [List.getElem?_set_self (by simpa using hilen)]

/-- C7: a NIC's `put` buffers values until it holds three, at which point
the `(destination, x, y)` packet is dispatched through the router at once
and the output-assembly buffer is left empty: destination 255 stores the
packet in the NAT (overwriting whatever it held), and any other in-range
destination appends `x` then `y` to that interface's input queue (including
the sending interface itself). -/
theorem claim_C7_nic_output :
    (∀ (net : Day23.Network) (i : Nat) (nic : Day23.Nic) (v : Int),
        net.interfaces[i]? = some nic →
        (nic.output_buffer ++ [v]).length ≠ 3 →
        Day23.Network.put net i v = Except.ok
          { net with interfaces := net.interfaces.set i ({ nic with output_buffer := nic.output_buffer ++ [v] }) })
    ∧ (∀ (net : Day23.Network) (i : Nat) (nic : Day23.Nic) (x y : Int),
        net.interfaces[i]? = some nic →
        nic.output_buffer = [255, x] →
        Day23.Network.put net i y = Except.ok
          { net with
            interfaces := net.interfaces.set i ({ nic with output_buffer := [] })
            nat := { net.nat with buffer := some (x, y) } })
    ∧ (∀ (net : Day23.Network) (i : Nat) (nic target : Day23.Nic) (d x y : Int),
        net.interfaces[i]? = some nic →
        nic.output_buffer = [d, x] →
        0 ≤ d → d < (USIZE : Int) → d.toNat ≠ 255 → d.toNat ≠ i →
        net.interfaces[d.toNat]? = some target →
        Day23.Network.put net i y = Except.ok
          { net with interfaces := (net.interfaces.set d.toNat ({ target with input_buffer := target.input_buffer ++ [x, y] })).set i ({ nic with output_buffer := [] }) })
    ∧ (∀ (net : Day23.Network) (i : Nat) (nic : Day23.Nic) (d x y : Int),
        net.interfaces[i]? = some nic →
        nic.output_buffer = [d, x] →
        0 ≤ d → d < (USIZE : Int) → d.toNat ≠ 255 → d.toNat = i →
        Day23.Network.put net i y = Except.ok
          { net with interfaces := net.interfaces.set i ({ nic with input_buffer := nic.input_buffer ++ [x, y], output_buffer := [] }) }) :=
  ⟨day23_put_buffering, day23_put_dispatch_nat, day23_put_dispatch_nic,
   day23_put_dispatch_self⟩

/-- Witness for C7 on a concrete two-interface network. -/
theorem claim_C7_witness :
    (Day23.Network.put ⟨[⟨0, true, false, [], []⟩], ⟨none, none⟩⟩ 0 255
        = Except.ok ⟨[⟨0, true, false, [], [255]⟩], ⟨none, none⟩⟩)
    ∧ (Day23.Network.put ⟨[⟨0, true, false, [], [255, 4]⟩], ⟨none, none⟩⟩ 0 5
        = Except.ok ⟨[⟨0, true, false, [], []⟩], ⟨some (4, 5), none⟩⟩)
    ∧ (Day23.Network.put
        ⟨[⟨0, true, false, [], [1, 4]⟩, ⟨1, true, false, [], []⟩], ⟨none, none⟩⟩ 0 5
        = Except.ok
            ⟨[⟨0, true, false, [], []⟩, ⟨1, true, false, [4, 5], []⟩], ⟨none, none⟩⟩)
    ∧ (Day23.Network.put ⟨[⟨0, true, false, [], [0, 4]⟩], ⟨none, none⟩⟩ 0 5
        = Except.ok ⟨[⟨0, true, false, [4, 5], []⟩], ⟨none, none⟩⟩) := by
  refine ⟨claim_C7_nic_output.1 ⟨[⟨0, true, false, [], []⟩], ⟨none, none⟩⟩ 0
      ⟨0, true, false, [], []⟩ 255 rfl (by decide),
    claim_C7_nic_output.2.1 ⟨[⟨0, true, false, [], [255, 4]⟩], ⟨none, none⟩⟩ 0
      ⟨0, true, false, [], [255, 4]⟩ 4 5 rfl rfl,
    claim_C7_nic_output.2.2.1
      ⟨[⟨0, true, false, [], [1, 4]⟩, ⟨1, true, false, [], []⟩], ⟨none, none⟩⟩ 0
      ⟨0, true, false, [], [1, 4]⟩ ⟨1, true, false, [], []⟩ 1 4 5 rfl rfl
      (by decide) (by decide) (by decide) (by decide) rfl,
    claim_C7_nic_output.2.2.2
      ⟨[⟨0, true, false, [], [0, 4]⟩], ⟨none, none⟩⟩ 0
      ⟨0, true, false, [], [0, 4]⟩ 0 4 5 rfl rfl (by decide) (by decide)
      (by decide) (by decide)⟩

/-! ## Claims C8 and C10: NAT polling -/

theorem day23_idle_iff (net : Day23.Network) :
    net.network_idle = true ↔
      ∀ nic ∈ net.interfaces,
        nic.input_buffer = [] ∧ nic.output_buffer = [] ∧ nic.got_input = false := by
  simp [Day23.Network.network_idle, Day23.Nic.is_idle, List.all_eq_true,
    List.isEmpty_iff, Bool.and_eq_true, Bool.not_eq_true', and_assoc]

theorem day23_poll_forward (net : Day23.Network) (x y : Int) (nic0 : Day23.Nic)
    (hidle : net.network_idle = true)
    (hbuf : net.nat.buffer = some (x, y))
    (h0 : net.interfaces[0]? = some nic0) :
    Day23.Network.poll net = Except.ok
      ({ net with
         interfaces := net.interfaces.set 0 ({ nic0 with input_buffer := nic0.input_buffer ++ [x, y] })
         nat := { net.nat with last_sent := some (x, y) } },
       decide (net.nat.last_sent = some (x, y))) := by
  simp only [Day23.Network.poll, hidle, if_true, hbuf, Day23.Router.send, h0,
    except_bind_ok, Day23.Nic.receive]
  simp [except_bind_ok, hbuf]

theorem day23_poll_not_idle (net : Day23.Network)
    (hidle : net.network_idle = false) :
    Day23.Network.poll net = Except.ok (net, false) := by
  simp only [Day23.Network.poll, hidle]
  simp

theorem day23_poll_no_packet (net : Day23.Network)
    (hbuf : net.nat.buffer = none) :
    Day23.Network.poll net = Except.ok (net, false) := by
  cases hidle : net.network_idle with
  | false => exact day23_poll_not_idle net hidle
  | true => simp only [Day23.Network.poll, hidle, hbuf]; simp

/-- C8: polling the NAT forwards its buffered packet to address 0 and
records it as last-sent exactly when the network is idle (every NIC has an
empty input queue, an empty output-assembly buffer, and did not receive a
value on its most recent poll) and a packet is buffered; the stall signal
fires exactly when the forwarded pair equals the previously forwarded
last-sent pair. -/
theorem claim_C8_nat_poll :
    (∀ net : Day23.Network, net.network_idle = true ↔
        ∀ nic ∈ net.interfaces,
          nic.input_buffer = [] ∧ nic.output_buffer = [] ∧ nic.got_input = false)
    ∧ (∀ (net : Day23.Network) (x y : Int) (nic0 : Day23.Nic),
        net.network_idle = true → net.nat.buffer = some (x, y) →
        net.interfaces[0]? = some nic0 →
        Day23.Network.poll net = Except.ok
          ({ net with
             interfaces := net.interfaces.set 0 ({ nic0 with input_buffer := nic0.input_buffer ++ [x, y] })
             nat := { net.nat with last_sent := some (x, y) } },
           decide (net.nat.last_sent = some (x, y))))
    ∧ (∀ net : Day23.Network, net.network_idle = false →
        Day23.Network.poll net = Except.ok (net, false))
    ∧ (∀ net : Day23.Network, net.nat.buffer = none →
        Day23.Network.poll net = Except.ok (net, false))
    ∧ (∀ (net : Day23.Network) (x y : Int) (nic0 : Day23.Nic)
        (net2 : Day23.Network) (b : Bool),
        net.network_idle = true → net.nat.buffer = some (x, y) →
        net.interfaces[0]? = some nic0 →
        Day23.Network.poll net = Except.ok (net2, b) →
        (b = true ↔ net.nat.last_sent = some (x, y))) := by
  refine ⟨day23_idle_iff, day23_poll_forward, day23_poll_not_idle,
    day23_poll_no_packet, ?_⟩
  intro net x y nic0 net2 b hidle hbuf h0 hpoll
  rw [day23_poll_forward net x y nic0 hidle hbuf h0] at hpoll
  have hpair := Except.ok.inj hpoll
  have hb : decide (net.nat.last_sent = some (x, y)) = b :=
    ((Prod.mk.injEq _ _ _ _).mp hpair).2
  rw [← hb]
  simp

/-- Witness for C8 on concrete one-interface networks. -/
theorem claim_C8_witness :
    (Day23.Network.poll ⟨[⟨0, true, false, [], []⟩], ⟨some (4, 5), none⟩⟩
        = Except.ok
            (⟨[⟨0, true, false, [4, 5], []⟩], ⟨some (4, 5), some (4, 5)⟩⟩, false))
    ∧ (Day23.Network.poll ⟨[⟨0, true, true, [], []⟩], ⟨some (4, 5), none⟩⟩
        = Except.ok (⟨[⟨0, true, true, [], []⟩], ⟨some (4, 5), none⟩⟩, false))
    ∧ (Day23.Network.poll ⟨[⟨0, true, false, [], []⟩], ⟨none, some (1, 2)⟩⟩
        = Except.ok (⟨[⟨0, true, false, [], []⟩], ⟨none, some (1, 2)⟩⟩, false))
    ∧ (false = true ↔ (none : Option (Int × Int)) = some (4, 5)) := by
  refine ⟨claim_C8_nat_poll.2.1 ⟨[⟨0, true, false, [], []⟩], ⟨some (4, 5), none⟩⟩
      4 5 ⟨0, true, false, [], []⟩ rfl rfl rfl,
    claim_C8_nat_poll.2.2.1 ⟨[⟨0, true, true, [], []⟩], ⟨some (4, 5), none⟩⟩ rfl,
    claim_C8_nat_poll.2.2.2.1 ⟨[⟨0, true, false, [], []⟩], ⟨none, some (1, 2)⟩⟩ rfl,
    claim_C8_nat_poll.2.2.2.2 ⟨[⟨0, true, false, [], []⟩], ⟨some (4, 5), none⟩⟩
      4 5 ⟨0, true, false, [], []⟩ _ false rfl rfl rfl rfl⟩

/-- C10: forwarding does not clear the NAT's packet buffer — a poll in an
idle network with a buffered packet leaves the buffer holding that same
packet, modifies only `last_sent` and interface 0's input queue, and leaves
every other interface untouched; consequently a later poll in an idle
network whose NAT state is unchanged since that forward forwards the
identical packet again and signals the stall. -/
theorem claim_C10_nat_buffer_not_cleared :
    (∀ (net : Day23.Network) (x y : Int) (nic0 : Day23.Nic)
        (net2 : Day23.Network) (b : Bool),
        net.network_idle = true → net.nat.buffer = some (x, y) →
        net.interfaces[0]? = some nic0 →
        Day23.Network.poll net = Except.ok (net2, b) →
        net2.nat.buffer = net.nat.buffer
        ∧ net2.nat.buffer = some (x, y)
        ∧ net2.nat.last_sent = some (x, y)
        ∧ (∀ j : Nat, j ≠ 0 → net2.interfaces[j]? = net.interfaces[j]?)
        ∧ net2.interfaces[0]?
            = some ({ nic0 with input_buffer := nic0.input_buffer ++ [x, y] }))
    ∧ (∀ (net : Day23.Network) (x y : Int) (nic0 : Day23.Nic)
        (net1 : Day23.Network) (b1 : Bool) (net2 : Day23.Network)
        (nic0' : Day23.Nic),
        net.network_idle = true → net.nat.buffer = some (x, y) →
        net.interfaces[0]? = some nic0 →
        Day23.Network.poll net = Except.ok (net1, b1) →
        net2.nat = net1.nat → net2.network_idle = true →
        net2.interfaces[0]? = some nic0' →
        Day23.Network.poll net2 = Except.ok
          ({ net2 with
             interfaces := net2.interfaces.set 0 ({ nic0' with input_buffer := nic0'.input_buffer ++ [x, y] })
             nat := { net2.nat with last_sent := some (x, y) } },
           true)) := by
  constructor
  · intro net x y nic0 net2 b hidle hbuf h0 hpoll
    have hlen : 0 < net.interfaces.length := day23_interfaces_lt_of_get net 0 nic0 h0
    rw [day23_poll_forward net x y nic0 hidle hbuf h0] at hpoll
    have hpair := Except.ok.inj hpoll
    have hnet : _ = net2 := ((Prod.mk.injEq _ _ _ _).mp hpair).1
    subst hnet
    refine ⟨rfl, hbuf, rfl, ?_, ?_⟩
    · intro j hj
      simp only
      rw [List.getElem?_set_ne (Ne.symm hj)]
    · simp only
      rw [List.getElem?_set_self (by simpa using hlen)]
  · intro net x y nic0 net1 b1 net2 nic0' hidle hbuf h0 hpoll1 hnat hidle2 h02
    rw [day23_poll_forward net x y nic0 hidle hbuf h0] at hpoll1
    have hpair := Except.ok.inj hpoll1
    have hnet1 : _ = net1 := ((Prod.mk.injEq _ _ _ _).mp hpair).1
    have hbuf2 : net2.nat.buffer = some (x, y) := by
      rw [hnat, ← hnet1]
      exact hbuf
    have hls2 : net2.nat.last_sent = some (x, y) := by
      rw [hnat, ← hnet1]
    rw [day23_poll_forward net2 x y nic0' hidle2 hbuf2 h02, hls2]
    simp

/-- Witness for C10: the same packet is forwarded twice and the second
forward signals the stall. -/
theorem claim_C10_witness :
    ((⟨[⟨0, true, false, [4, 5], []⟩], ⟨some (4, 5), some (4, 5)⟩⟩ : Day23.Network).nat.buffer
        = some (4, 5))
    ∧ (Day23.Network.poll ⟨[⟨0, true, false, [], []⟩], ⟨some (4, 5), some (4, 5)⟩⟩
        = Except.ok
            (⟨[⟨0, true, false, [4, 5], []⟩], ⟨some (4, 5), some (4, 5)⟩⟩, true)) := by
  refine ⟨(claim_C10_nat_buffer_not_cleared.1
      ⟨[⟨0, true, false, [], []⟩], ⟨some (4, 5), none⟩⟩ 4 5
      ⟨0, true, false, [], []⟩
      ⟨[⟨0, true, false, [4, 5], []⟩], ⟨some (4, 5), some (4, 5)⟩⟩ false
      rfl rfl rfl rfl).2.1,
    claim_C10_nat_buffer_not_cleared.2
      ⟨[⟨0, true, false, [], []⟩], ⟨some (4, 5), none⟩⟩ 4 5
      ⟨0, true, false, [], []⟩
      ⟨[⟨0, true, false, [4, 5], []⟩], ⟨some (4, 5), some (4, 5)⟩⟩ false
      ⟨[⟨0, true, false, [], []⟩], ⟨some (4, 5), some (4, 5)⟩⟩
      ⟨0, true, false, [], []⟩ rfl rfl rfl rfl rfl rfl rfl⟩
